import Mathlib

/-!
Shallow embedding of the MCP environment bootstrap service
(`McpEnvInitService` in the main process, together with the shared
`McpEnvInit*` types and the locale helper).

Modelling conventions:
* Machine time (`Date.now()`) is modelled by a tick counter carried in the
  service record; each call to `now()` yields the current tick and advances
  the counter.  Only the relative order and coincidence of timestamps matter
  for the properties below.
* The external collaborators (`isBinaryExists`, `spawnNodeScriptStreaming`)
  are inputs of the run: probe results are booleans, and an installer
  invocation yields either a thrown message (spawn failure) or a result
  record carrying the interleaved output chunks, the exit code and the full
  captured stdout/stderr.
* IPC event delivery (`WebContents.send`, wrapped in a try/catch that only
  logs) is modelled as an ordered list of emitted events.
* Promises are sequentialised: `start` is modelled by its synchronous
  decision prefix plus the full run executed to completion; promise identity
  is modelled by a numeric handle stored in the `running` field.
-/

set_option maxRecDepth 8000

namespace McpEnv

/-- The `McpEnvInitStage` union type. -/
inductive Stage
  | idle
  | startCheck
  | checkUv
  | checkBun
  | needInstall
  | noNeedInstall
  | startInstallUv
  | installingUv
  | startInstallBun
  | installingBun
  | envReady
  | failedStage
  deriving DecidableEq, Repr

/-- The `McpEnvInitLogLevel` union type. -/
inductive LogLevel
  | info
  | warn
  | error
  deriving DecidableEq, Repr

/-- The optional `source` tag of a log entry. -/
inductive LogSource
  | uv
  | bun
  | system
  deriving DecidableEq, Repr

/-- The `McpEnvInitLog` record. -/
structure McpEnvInitLog where
  ts : Nat
  level : LogLevel
  message : String
  source : Option LogSource
  deriving DecidableEq, Repr

/-- The `McpEnvInitError` record (`FailureDetail` in the spec). -/
structure McpEnvInitError where
  message : String
  command : Option String
  exitCode : Option Int
  stderrTail : Option String
  stdoutTail : Option String
  suggestion : Option String
  deriving DecidableEq, Repr

/-- The `McpEnvInitState` record (`BootstrapState` in the spec). -/
structure McpEnvInitState where
  stage : Stage
  uvInstalled : Bool
  bunInstalled : Bool
  installing : Bool
  done : Bool
  failed : Bool
  error : Option McpEnvInitError
  logs : List McpEnvInitLog
  updatedAt : Nat
  deriving DecidableEq, Repr

/-- The `McpEnvInitEvent` union type (`BootstrapEvent` in the spec). -/
inductive McpEnvInitEvent
  | state (st : McpEnvInitState)
  | log (entry : McpEnvInitLog)
  | stage (s : Stage) (atTime : Nat)
  deriving DecidableEq, Repr

/-- The constant `MAX_LOGS`. -/
def MAX_LOGS : Nat := 500

/-- The constant `TAIL_MAX`. -/
def TAIL_MAX : Nat := 4000

/-- The locale helper `t`.  The translation tables are JSON resources loaded
from disk, external to the core; when no translation is found `locale.t`
returns the key itself, which is the behaviour modelled here (translation
content never influences control flow, only message text). -/
def t (key : String) : String := key

/-- Does `pat` occur at the head of the haystack?  (Character-list model
of JavaScript string matching.) -/
def charsLeading : List Char → List Char → Bool
  | [], _ => true
  | _ :: _, [] => false
  | p :: ps, c :: cs => p == c && charsLeading ps cs

/-- Does `pat` occur anywhere in the haystack? -/
def charsContain (pat : List Char) : List Char → Bool
  | [] => charsLeading pat []
  | c :: rest => charsLeading pat (c :: rest) || charsContain pat rest

/-- JavaScript `s.includes(pat)`. -/
def includesSub (s pat : String) : Bool := charsContain pat.data s.data

/-- JavaScript `s.toLowerCase()` (over the characters that occur here). -/
def toLowerStr (s : String) : String := String.mk (s.data.map Char.toLower)

/-- JavaScript `s.trim()` (ASCII whitespace, which is all that occurs
here). -/
def trimStr (s : String) : String :=
  String.mk (((s.data.dropWhile Char.isWhitespace).reverse.dropWhile Char.isWhitespace).reverse)

/-- JavaScript `parts.join(', ')`. -/
def joinComma : List String → String
  | [] => ""
  | [x] => x
  | x :: rest => x ++ ", " ++ joinComma rest

/-- The helper `tailText`: keep at most the trailing `TAIL_MAX` characters
(JavaScript `slice(-TAIL_MAX)`; lengths are counted in characters). -/
def tailText (text : String) : String :=
  if text.data.length > TAIL_MAX then String.mk (text.data.drop (text.data.length - TAIL_MAX))
  else text

/-- The classifier `summarizeFailure`: ordered substring scan over lower-cased
stderr+stdout.  `isWin` is the module-level platform flag, passed
explicitly here. -/
def summarizeFailure (isWin : Bool) (stderr stdout : String) : Option String :=
  let s := toLowerStr (stderr ++ "\n" ++ stdout)
  if includesSub s "enotfound" || includesSub s "econnrefused" ||
      includesSub s "etimedout" || includesSub s "timed out" ||
      includesSub s "network is unreachable" || includesSub s "could not resolve" then
    some (t "mcp.envInit.errorSummary.networkIssue")
  else if includesSub s "certificate" || includesSub s "self signed" ||
      includesSub s "unable to get local issuer" then
    some (t "mcp.envInit.errorSummary.certificateIssue")
  else if includesSub s "eacces" || includesSub s "eperm" ||
      includesSub s "permission denied" || includesSub s "access is denied" then
    some (if isWin then t "mcp.envInit.errorSummary.permissionWindows"
          else t "mcp.envInit.errorSummary.permissionUnix")
  else
    none

/-- The result of `defaultState()` at tick `c`. -/
def defaultState (c : Nat) : McpEnvInitState :=
  { stage := Stage.idle
    uvInstalled := false
    bunInstalled := false
    installing := false
    done := false
    failed := false
    error := none
    logs := []
    updatedAt := c }

/-- The service instance: its mutable state, the time tick, and the
in-flight promise handle (`running`) with a fresh-handle counter. -/
structure Svc where
  state : McpEnvInitState
  clock : Nat
  running : Option Nat
  nextId : Nat
  deriving DecidableEq, Repr

abbrev Ev := McpEnvInitEvent

/-- The private `pushLog`: build the entry with one `now()` call, append it with the
500-entry ring bound (`slice(-MAX_LOGS)`), stamp `updatedAt` with a second
`now()` call, and emit the log event followed by a state snapshot. -/
def pushLog (svc : Svc) (level : LogLevel) (message : String)
    (source : Option LogSource) : Svc × List Ev :=
  let entry : McpEnvInitLog := { ts := svc.clock, level := level, message := message, source := source }
  let logs := (svc.state.logs ++ [entry]).drop (svc.state.logs.length + 1 - MAX_LOGS)
  let st := { svc.state with logs := logs, updatedAt := svc.clock + 1 }
  ({ svc with state := st, clock := svc.clock + 2 }, [McpEnvInitEvent.log entry, McpEnvInitEvent.state st])

/-- The private `info` helper. -/
def infoLog (svc : Svc) (message : String) (source : Option LogSource) : Svc × List Ev :=
  pushLog svc LogLevel.info message source

/-- The private `warn` helper. -/
def warnLog (svc : Svc) (message : String) (source : Option LogSource) : Svc × List Ev :=
  pushLog svc LogLevel.warn message source

/-- The private `error` helper. -/
def errorLog (svc : Svc) (message : String) (source : Option LogSource) : Svc × List Ev :=
  pushLog svc LogLevel.error message source

/-- The private `setStage`: write the stage, bump `updatedAt`, emit the stage event and
then a snapshot of the post-transition state. -/
def setStage (svc : Svc) (stage : Stage) : Svc × List Ev :=
  let st := { svc.state with stage := stage, updatedAt := svc.clock }
  ({ svc with state := st, clock := svc.clock + 1 },
    [McpEnvInitEvent.stage stage st.updatedAt, McpEnvInitEvent.state st])

/-- The shared `fail` transition: enter the terminal failed state, emit a snapshot, then an
error-level log, then (when a suggestion is present) a warn-level log. -/
def fail (svc : Svc) (err : McpEnvInitError) : Svc × List Ev :=
  let st := { svc.state with
    failed := true
    done := true
    installing := false
    error := some err
    stage := Stage.failedStage
    updatedAt := svc.clock }
  let svc1 : Svc := { svc with state := st, clock := svc.clock + 1 }
  let r1 := errorLog svc1 (t "mcp.envInit.messages.initFailed" ++ err.message) (some LogSource.system)
  match err.suggestion with
  | some sug =>
      let r2 := warnLog r1.1 (t "mcp.envInit.errors.suggestion" ++ sug) (some LogSource.system)
      (r2.1, McpEnvInitEvent.state st :: r1.2 ++ r2.2)
  | none => (r1.1, McpEnvInitEvent.state st :: r1.2)

/-- Split a character list on `\r\n` or `\n` (JavaScript
`split(/\r?\n/)`). -/
def splitLinesChars : List Char → List (List Char)
  | [] => [[]]
  | '\r' :: '\n' :: rest => [] :: splitLinesChars rest
  | '\n' :: rest => [] :: splitLinesChars rest
  | c :: rest =>
      match splitLinesChars rest with
      | [] => [[c]]
      | l :: ls => (c :: l) :: ls

/-- Split a streamed chunk on `/\r?\n/`. -/
def splitLines (chunk : String) : List String :=
  (splitLinesChars chunk.data).map String.mk

/-- The per-line body of the streaming callbacks: trim, drop blanks, route
stderr lines to warn logs and stdout lines to info logs. -/
def logLines (tool : LogSource) (isErr : Bool) : List String → Svc → Svc × List Ev
  | [], svc => (svc, [])
  | line :: rest, svc =>
      let msg := trimStr line
      let r1 :=
        if msg = "" then (svc, ([] : List Ev))
        else if isErr then warnLog svc msg (some tool)
        else infoLog svc msg (some tool)
      let r2 := logLines tool isErr rest r1.1
      (r2.1, r1.2 ++ r2.2)

/-- The interleaved `onStdoutChunk`/`onStderrChunk` callback invocations of
one installer run; `true` marks a stderr chunk. -/
def processChunks (tool : LogSource) : List (Bool × String) → Svc → Svc × List Ev
  | [], svc => (svc, [])
  | (isErr, chunk) :: rest, svc =>
      let r1 := logLines tool isErr (splitLines chunk) svc
      let r2 := processChunks tool rest r1.1
      (r2.1, r1.2 ++ r2.2)

/-- The value of a completed `spawnNodeScriptStreaming` call: the output
chunks delivered to the callbacks, the exit code, and the full captured
stderr/stdout. -/
structure SpawnResult where
  chunks : List (Bool × String)
  exitCode : Int
  stderr : String
  stdout : String
  deriving DecidableEq, Repr

/-- External inputs of one run: the platform flag, the probe results of the
first check, each installer's outcome (`Except.error` models the spawn
itself throwing, carrying the thrown message), and the probe results of the
re-check. -/
structure Env where
  isWin : Bool
  uvxExists1 : Bool
  uvExists1 : Bool
  bunExists1 : Bool
  uvInstallRes : Except String SpawnResult
  bunInstallRes : Except String SpawnResult
  uvxExists2 : Bool
  uvExists2 : Bool
  bunExists2 : Bool
  deriving Repr

/-- Modelled from the spec: `process.execPath` is a host-environment value external to the core;
modelled as a fixed string. -/
def execPath : String := "node"

/-- Modelled from the spec: `path.join(getResourcePath(), 'scripts', 'install-uv.js')`;
`getResourcePath()` is external, modelled as a fixed prefix. -/
def uvScript : String := "resources/scripts/install-uv.js"

/-- Modelled from the spec: `path.join(getResourcePath(), 'scripts', 'install-bun.js')`. -/
def bunScript : String := "resources/scripts/install-bun.js"

/-- The exact command line recorded for the uv installer. -/
def uvCommand : String := execPath ++ " " ++ uvScript

/-- The exact command line recorded for the bun installer. -/
def bunCommand : String := execPath ++ " " ++ bunScript

/-- The private `installUv`: stage transitions, streamed output logging, and the two
failure paths (non-zero exit, spawn throw) with their `fail` calls; the
result's `Except.error` carries the message of the error the method throws
or re-throws. -/
def installUv (isWin : Bool) (res : Except String SpawnResult) (svc : Svc) :
    Except String Unit × Svc × List Ev :=
  let r1 := setStage svc Stage.startInstallUv
  let r2 := warnLog r1.1 (t "mcp.envInit.messages.startInstallUv") (some LogSource.uv)
  let r3 := setStage r2.1 Stage.installingUv
  let pre := r1.2 ++ r2.2 ++ r3.2
  match res with
  | Except.error emsg =>
      if r3.1.state.failed then (Except.error emsg, r3.1, pre)
      else
        let r4 := fail r3.1
          { message := t "mcp.envInit.messages.uvInstallException" ++ emsg
            command := some uvCommand
            exitCode := none
            stderrTail := none
            stdoutTail := none
            suggestion := some (if isWin then t "mcp.envInit.messages.checkPowerShellFirewall"
                                else t "mcp.envInit.messages.checkNetworkProxy") }
        (Except.error emsg, r4.1, pre ++ r4.2)
  | Except.ok sr =>
      let r4 := processChunks LogSource.uv sr.chunks r3.1
      if sr.exitCode ≠ 0 then
        let r5 := fail r4.1
          { message := t "mcp.envInit.messages.uvInstallFailed"
            command := some uvCommand
            exitCode := some sr.exitCode
            stderrTail := some (tailText sr.stderr)
            stdoutTail := some (tailText sr.stdout)
            suggestion := summarizeFailure isWin sr.stderr sr.stdout }
        (Except.error "uv install failed", r5.1, pre ++ r4.2 ++ r5.2)
      else
        let r5 := infoLog r4.1 (t "mcp.envInit.messages.uvInstallScriptCompleted") (some LogSource.uv)
        (Except.ok (), r5.1, pre ++ r4.2 ++ r5.2)

/-- The private `installBun`: as `installUv`, except that the spawn-throw suggestion is
the classifier applied to the thrown message with a fixed
network/permission/certificate fallback (JavaScript `||`; the classifier
only ever returns non-empty translation keys, so `||` is `Option.getD`). -/
def installBun (isWin : Bool) (res : Except String SpawnResult) (svc : Svc) :
    Except String Unit × Svc × List Ev :=
  let r1 := setStage svc Stage.startInstallBun
  let r2 := warnLog r1.1 (t "mcp.envInit.messages.startInstallBun") (some LogSource.bun)
  let r3 := setStage r2.1 Stage.installingBun
  let pre := r1.2 ++ r2.2 ++ r3.2
  match res with
  | Except.error emsg =>
      if r3.1.state.failed then (Except.error emsg, r3.1, pre)
      else
        let r4 := fail r3.1
          { message := t "mcp.envInit.messages.bunInstallException" ++ emsg
            command := some bunCommand
            exitCode := none
            stderrTail := none
            stdoutTail := none
            suggestion := some ((summarizeFailure isWin "" emsg).getD
              (t "mcp.envInit.messages.checkNetworkPermissionCert")) }
        (Except.error emsg, r4.1, pre ++ r4.2)
  | Except.ok sr =>
      let r4 := processChunks LogSource.bun sr.chunks r3.1
      if sr.exitCode ≠ 0 then
        let r5 := fail r4.1
          { message := t "mcp.envInit.messages.bunInstallFailed"
            command := some bunCommand
            exitCode := some sr.exitCode
            stderrTail := some (tailText sr.stderr)
            stdoutTail := some (tailText sr.stdout)
            suggestion := summarizeFailure isWin sr.stderr sr.stdout }
        (Except.error "bun install failed", r5.1, pre ++ r4.2 ++ r5.2)
      else
        let r5 := infoLog r4.1 (t "mcp.envInit.messages.bunInstallScriptCompleted") (some LogSource.bun)
        (Except.ok (), r5.1, pre ++ r4.2 ++ r5.2)

/-- The assignment `this.state.uvInstalled = v` (probe-result write, no `updatedAt` bump). -/
def setUvFlag (svc : Svc) (v : Bool) : Svc :=
  { svc with state := { svc.state with uvInstalled := v } }

/-- The assignment `this.state.bunInstalled = v` (probe-result write, no `updatedAt` bump). -/
def setBunFlag (svc : Svc) (v : Bool) : Svc :=
  { svc with state := { svc.state with bunInstalled := v } }

/-- The assignment `this.state.installing = v` (no `updatedAt` bump). -/
def setInstallingFlag (svc : Svc) (v : Bool) : Svc :=
  { svc with state := { svc.state with installing := v } }

/-- The re-check writes of both probe flags (no emit, no `updatedAt` bump). -/
def setBothFlags (svc : Svc) (u b : Bool) : Svc :=
  { svc with state := { svc.state with uvInstalled := u, bunInstalled := b } }

/-- The terminal writes of the no-need-install path:
`done=true; installing=false; failed=false` (no `updatedAt` bump). -/
def setTerminalReady (svc : Svc) : Svc :=
  { svc with state := { svc.state with done := true, installing := false, failed := false } }

/-- The terminal writes of the install-success path:
`done=true; failed=false; installing=false; updatedAt=now()`. -/
def setTerminalStamped (svc : Svc) : Svc :=
  { svc with
    state :=
      { svc.state with done := true, failed := false, installing := false, updatedAt := svc.clock }
    clock := svc.clock + 1 }

/-- The flag reset at the head of a launching `start` call (logs kept). -/
def resetTransient (svc : Svc) : Svc :=
  { svc with
    state :=
      { svc.state with
        failed := false, done := false, error := none, installing := false, updatedAt := svc.clock }
    clock := svc.clock + 1 }

/-- The private `run` method: detection, conditional sequential
installation, re-check, and the terminal transition.  The `Except.error`
result models the run's promise rejecting with the carried message. -/
def run (env : Env) (svc : Svc) : Except String McpEnvInitState × Svc × List Ev :=
  let r1 := setStage svc Stage.checkUv
  let r2 := infoLog r1.1 (t "mcp.envInit.messages.checkingUv") (some LogSource.uv)
  let uvOk := env.uvxExists1 || env.uvExists1
  let svc3 := setUvFlag r2.1 uvOk
  let r4 := infoLog svc3
    (if uvOk then t "mcp.envInit.messages.uvInstalled" else t "mcp.envInit.messages.uvNotInstalled")
    (some LogSource.uv)
  let r5 := setStage r4.1 Stage.checkBun
  let r6 := infoLog r5.1 (t "mcp.envInit.messages.checkingBun") (some LogSource.bun)
  let bunOk := env.bunExists1
  let svc7 := setBunFlag r6.1 bunOk
  let r8 := infoLog svc7
    (if bunOk then t "mcp.envInit.messages.bunInstalled" else t "mcp.envInit.messages.bunNotInstalled")
    (some LogSource.bun)
  let pre := r1.2 ++ r2.2 ++ [McpEnvInitEvent.state svc3.state] ++ r4.2 ++ r5.2 ++ r6.2 ++
    [McpEnvInitEvent.state svc7.state] ++ r8.2
  let needUv := !uvOk
  let needBun := !bunOk
  if !needUv && !needBun then
    let r9 := setStage r8.1 Stage.noNeedInstall
    let r10 := infoLog r9.1 (t "mcp.envInit.messages.noNeedInstall") (some LogSource.system)
    let r11 := setStage r10.1 Stage.envReady
    let svc12 := setTerminalReady r11.1
    (Except.ok svc12.state, svc12,
      pre ++ r9.2 ++ r10.2 ++ r11.2 ++ [McpEnvInitEvent.state svc12.state])
  else
    let r9 := setStage r8.1 Stage.needInstall
    let missing := joinComma
      ((if needUv then ["uv"] else []) ++ (if needBun then ["bun"] else []))
    let r10 := warnLog r9.1 (t "mcp.envInit.messages.needInstall" ++ missing) (some LogSource.system)
    let svc11 := setInstallingFlag r10.1 true
    let pre2 := pre ++ r9.2 ++ r10.2 ++ [McpEnvInitEvent.state svc11.state]
    let instUv :=
      if needUv then installUv env.isWin env.uvInstallRes svc11
      else (Except.ok (), svc11, ([] : List Ev))
    match instUv with
    | (Except.error m, svcE, evE) => (Except.error m, svcE, pre2 ++ evE)
    | (Except.ok _, svcA, evA) =>
      let instBun :=
        if needBun then installBun env.isWin env.bunInstallRes svcA
        else (Except.ok (), svcA, ([] : List Ev))
      match instBun with
      | (Except.error m, svcE, evE) => (Except.error m, svcE, pre2 ++ evA ++ evE)
      | (Except.ok _, svcB, evB) =>
          let r12 := setStage svcB Stage.startCheck
          let r13 := infoLog r12.1 (t "mcp.envInit.messages.recheckAfterInstall") (some LogSource.system)
          let uvOk2 := env.uvxExists2 || env.uvExists2
          let bunOk2 := env.bunExists2
          let svc14 := setBothFlags r13.1 uvOk2 bunOk2
          let pre3 := pre2 ++ evA ++ evB ++ r12.2 ++ r13.2
          if !uvOk2 || !bunOk2 then
            let r15 := fail svc14
              { message := t "mcp.envInit.messages.installScriptCompletedButRecheckFailed"
                command := none
                exitCode := none
                stderrTail := none
                stdoutTail := none
                suggestion := some (t "mcp.envInit.messages.checkSecuritySoftware") }
            (Except.ok r15.1.state, r15.1, pre3 ++ r15.2)
          else
            let r15 := setStage svc14 Stage.envReady
            let svc16 := setTerminalStamped r15.1
            let r17 := infoLog svc16 (t "mcp.envInit.messages.initComplete") (some LogSource.system)
            (Except.ok r17.1.state, r17.1,
              pre3 ++ r15.2 ++ [McpEnvInitEvent.state svc16.state] ++ r17.2)

/-- What a `start` call hands back to its caller: the cached state (the
already-ready short-circuit), the existing in-flight promise handle, or a
freshly launched run's handle together with the state that run's promise
resolves to. -/
inductive StartRet
  | cached (st : McpEnvInitState)
  | inflight (pid : Nat)
  | completed (pid : Nat) (st : McpEnvInitState)
  deriving DecidableEq, Repr

/-- The already-ready test of `start`'s first guard. -/
def readyState (st : McpEnvInitState) : Bool :=
  st.done && !st.failed && st.uvInstalled && st.bunInstalled

/-- The synchronous part of a launching `start` call before `run` begins:
reset the transient flags (keeping logs), transition to `start-check`, log
the system info line, and record the new in-flight handle. -/
def launchSetup (svc : Svc) : Svc × List Ev :=
  let svc0 := resetTransient svc
  let r1 := setStage svc0 Stage.startCheck
  let r2 := infoLog r1.1 (t "mcp.envInit.messages.startCheck") (some LogSource.system)
  let pid := r2.1.nextId
  ({ r2.1 with running := some pid, nextId := pid + 1 }, r1.2 ++ r2.2)

/-- The public `start`: the two idempotency guards, then the launched run
with its top-level catch (which converts a rejection into a `fail`ed state
the promise resolves with) and the `finally` that clears the in-flight
handle. -/
def start (env : Env) (svc : Svc) : StartRet × Svc × List Ev :=
  if readyState svc.state then
    (StartRet.cached svc.state, svc, [McpEnvInitEvent.state svc.state])
  else
    match svc.running with
    | some p => (StartRet.inflight p, svc, [McpEnvInitEvent.state svc.state])
    | none =>
        let pid := svc.nextId
        let pfx := launchSetup svc
        match run env pfx.1 with
        | (Except.ok stR, svcR, evR) =>
            (StartRet.completed pid stR, { svcR with running := none }, pfx.2 ++ evR)
        | (Except.error m, svcR, evR) =>
            let rF := fail svcR
              { message := m, command := none, exitCode := none,
                stderrTail := none, stdoutTail := none, suggestion := none }
            (StartRet.completed pid rF.1.state, { rF.1 with running := none },
              pfx.2 ++ evR ++ rF.2)

/-- The public `getState`. -/
def getState (svc : Svc) : McpEnvInitState := svc.state

/-! ### Derived notions used by the verification -/

/-- The states carried by the `StateSnapshot` events of a trace. -/
def snapsOf (evs : List Ev) : List McpEnvInitState :=
  evs.filterMap fun e =>
    match e with
    | McpEnvInitEvent.state st => some st
    | _ => none

/-- The spec's state invariant:
`done ⇒ (failed XOR (uvInstalled ∧ bunInstalled))`, `installing ⇒ ¬done`,
and `error` present iff `failed`. -/
def InvB (st : McpEnvInitState) : Bool :=
  (!st.done || (st.failed != (st.uvInstalled && st.bunInstalled))) &&
  (!st.installing || !st.done) &&
  (st.error.isSome == st.failed)

/-- The fields of the state that the invariant reads (everything except
`stage`, `logs` and `updatedAt`). -/
def coreFlags (st : McpEnvInitState) :
    Bool × Bool × Bool × Bool × Bool × Option McpEnvInitError :=
  (st.done, st.failed, st.installing, st.uvInstalled, st.bunInstalled, st.error)

/-- A freshly constructed service: `defaultState` at tick 0, no run in
flight. -/
def svcFresh : Svc :=
  { state := defaultState 0, clock := 1, running := none, nextId := 0 }

/-- A service whose cached state is terminal, non-failed, with both tools
installed. -/
def readySvc : Svc :=
  { state := { defaultState 0 with done := true, uvInstalled := true, bunInstalled := true }
    clock := 3
    running := none
    nextId := 1 }

/-- A spawn result of a run that exits 0 with no output. -/
def okSpawn : SpawnResult := { chunks := [], exitCode := 0, stderr := "", stdout := "" }

/-- Environment: both tools present at the first probe. -/
def envAllPresent : Env :=
  { isWin := false
    uvxExists1 := true
    uvExists1 := false
    bunExists1 := true
    uvInstallRes := Except.ok okSpawn
    bunInstallRes := Except.ok okSpawn
    uvxExists2 := true
    uvExists2 := true
    bunExists2 := true }

/-- Environment: uv missing, its installer exits 1 with stderr `boom`. -/
def envUvExitFail : Env :=
  { envAllPresent with
    uvxExists1 := false
    uvExists1 := false
    uvInstallRes := Except.ok { chunks := [(true, "boom\n")], exitCode := 1, stderr := "boom", stdout := "" } }

/-- Environment: uv missing, its installer succeeds and the re-check finds
both tools. -/
def envInstallOk : Env :=
  { envAllPresent with uvxExists1 := false, uvExists1 := false }

/-- Environment: uv missing and its installer spawn throws. -/
def envUvSpawnFail : Env :=
  { envAllPresent with
    uvxExists1 := false
    uvExists1 := false
    uvInstallRes := Except.error "boom" }

/-! ### C1, C2 -/

/-- C1 (single-flight): whenever the in-flight handle is non-null and the
cached state is not already ready, `start` emits exactly one
`StateSnapshot` of the current state, leaves the service (state and
handle) untouched, and returns the very same in-flight handle to the new
caller; the outcome does not depend on the probe/installer environment, so
no second run is executed no matter how many callers do this. -/
theorem start_single_flight (env : Env) (svc : Svc) (p : Nat)
    (hp : svc.running = some p) (hnr : readyState svc.state = false) :
    start env svc = (StartRet.inflight p, svc, [McpEnvInitEvent.state svc.state]) ∧
    ∀ env2 : Env, start env2 svc = start env svc := by
  constructor
  · simp [start, hnr, hp]
  · intro env2
    simp [start, hnr, hp]

/-- A service with a run in flight (handle 7) over a non-ready state. -/
def inflightSvc : Svc :=
  { state := defaultState 0, clock := 9, running := some 7, nextId := 8 }

/-- Witness for C1 at a concrete in-flight service. -/
theorem start_single_flight_witness :
    start envAllPresent inflightSvc =
      (StartRet.inflight 7, inflightSvc, [McpEnvInitEvent.state inflightSvc.state]) :=
  (start_single_flight envAllPresent inflightSvc 7 rfl (by decide)).1

/-- C2 (already-ready short-circuit): when the cached state has `done`,
not `failed`, and both tools installed, `start` emits exactly one
`StateSnapshot` of the cached state and returns it; the service record —
state, logs, `updatedAt`, clock, handle — is unchanged, and the result does
not depend on the probe/installer environment (no probe, no installer). -/
theorem start_already_ready (env : Env) (svc : Svc)
    (h1 : svc.state.done = true) (h2 : svc.state.failed = false)
    (h3 : svc.state.uvInstalled = true) (h4 : svc.state.bunInstalled = true) :
    start env svc = (StartRet.cached svc.state, svc, [McpEnvInitEvent.state svc.state]) ∧
    ∀ env2 : Env, start env2 svc = start env svc := by
  have hr : readyState svc.state = true := by
    simp [readyState, h1, h2, h3, h4]
  constructor
  · simp [start, hr]
  · intro env2
    simp [start, hr]

/-- Witness for C2 at a concrete ready service. -/
theorem start_already_ready_witness :
    start envAllPresent readySvc =
      (StartRet.cached readySvc.state, readySvc, [McpEnvInitEvent.state readySvc.state]) :=
  (start_already_ready envAllPresent readySvc rfl rfl rfl rfl).1

/-! ### C6 -/

/-- A sequence of log appends through the service's own `pushLog`. -/
def appendMessages : List String → Svc → Svc
  | [], svc => svc
  | m :: ms, svc => appendMessages ms (infoLog svc m (some LogSource.system)).1

/-- The surviving messages after a sequence of appends are exactly the most
recent `MAX_LOGS` of old-messages-then-new-messages, in order. -/
theorem appendMessages_logs (msgs : List String) : ∀ svc : Svc,
    svc.state.logs.length ≤ MAX_LOGS →
    (appendMessages msgs svc).state.logs.map (fun l => l.message) =
      ((svc.state.logs.map (fun l => l.message)) ++ msgs).drop
        (svc.state.logs.length + msgs.length - MAX_LOGS) := by
  induction msgs with
  | nil =>
      intro svc h
      have h0 : svc.state.logs.length - MAX_LOGS = 0 := by omega
      simp [appendMessages, h0]
  | cons m ms ih =>
      intro svc h
      have hstep : appendMessages (m :: ms) svc
          = appendMessages ms (infoLog svc m (some LogSource.system)).1 := rfl
      set svc1 := (infoLog svc m (some LogSource.system)).1 with hsvc1
      have hlogs1 : svc1.state.logs =
          (svc.state.logs ++
            [({ ts := svc.clock, level := LogLevel.info, message := m,
                source := some LogSource.system } : McpEnvInitLog)]).drop
            (svc.state.logs.length + 1 - MAX_LOGS) := rfl
      have hmap1 : svc1.state.logs.map (fun l => l.message) =
          ((svc.state.logs.map (fun l => l.message)) ++ [m]).drop
            (svc.state.logs.length + 1 - MAX_LOGS) := by
        rw [hlogs1, List.map_drop]
        simp
      have hlen1 : svc1.state.logs.length
          = svc.state.logs.length + 1 - (svc.state.logs.length + 1 - MAX_LOGS) := by
        rw [hlogs1, List.length_drop]
        simp
      have h1 : svc1.state.logs.length ≤ MAX_LOGS := by omega
      rw [hstep, ih svc1 h1, hmap1, hlen1]
      have hb : svc.state.logs.length + 1 - MAX_LOGS
          ≤ ((svc.state.logs.map (fun l => l.message)) ++ [m]).length := by
        simp only [List.length_append, List.length_map, List.length_cons, List.length_nil]
        omega
      rw [← List.drop_append_of_le_length hb, List.append_assoc, List.drop_drop]
      have harith :
          svc.state.logs.length + 1 - MAX_LOGS +
              (svc.state.logs.length + 1
                - (svc.state.logs.length + 1 - MAX_LOGS) + ms.length - MAX_LOGS)
            = svc.state.logs.length + (m :: ms).length - MAX_LOGS := by
        simp only [List.length_cons]
        omega
      rw [harith]
      simp

/-- C6 (log ring bound): every append leaves at most `MAX_LOGS` (= 500)
entries, and appending a batch of messages to an empty buffer keeps exactly
the most recent 500 of them, oldest evicted first, in insertion order —
in particular 600 appends leave exactly the last 500. -/
theorem log_ring_bound :
    (∀ (svc : Svc) (level : LogLevel) (msg : String) (src : Option LogSource),
      ((pushLog svc level msg src).1.state.logs).length ≤ MAX_LOGS) ∧
    (∀ (svc : Svc) (msgs : List String), svc.state.logs = [] →
      (appendMessages msgs svc).state.logs.map (fun l => l.message)
        = msgs.drop (msgs.length - MAX_LOGS)) := by
  constructor
  · intro svc level msg src
    have hlogs : (pushLog svc level msg src).1.state.logs =
        (svc.state.logs ++
          [({ ts := svc.clock, level := level, message := msg, source := src } : McpEnvInitLog)]).drop
          (svc.state.logs.length + 1 - MAX_LOGS) := rfl
    rw [hlogs, List.length_drop]
    simp only [List.length_append, List.length_cons, List.length_nil]
    have hK : MAX_LOGS = 500 := rfl
    omega
  · intro svc msgs h
    have hmain := appendMessages_logs msgs svc (by rw [h]; exact Nat.zero_le _)
    rw [h] at hmain
    simpa using hmain

/-- Witness for C6: pushing one entry onto the fresh service respects the
bound, and appending 600 numbered messages to the fresh (empty-log) service
leaves exactly the last 500 in order. -/
theorem log_ring_bound_witness :
    ((pushLog svcFresh LogLevel.info "m" none).1.state.logs).length ≤ MAX_LOGS ∧
    (appendMessages ((List.range 600).map toString) svcFresh).state.logs.map (fun l => l.message)
      = ((List.range 600).map toString).drop 100 := by
  constructor
  · exact log_ring_bound.1 svcFresh LogLevel.info "m" none
  · have h2 := log_ring_bound.2 svcFresh ((List.range 600).map toString) rfl
    simp only [List.length_map, List.length_range] at h2
    have h100 : 600 - MAX_LOGS = 100 := rfl
    rw [h100] at h2
    exact h2

/-! ### C4 -/

/-- The state written by the `fail` transition: the caller's state with the
terminal failure flags, the stored detail, the forced `failed` stage and
the stamped `updatedAt` (the logs appended afterwards are not part of this
first written-and-snapshotted state). -/
def failState (svc : Svc) (err : McpEnvInitError) : McpEnvInitState :=
  { svc.state with
    failed := true
    done := true
    installing := false
    error := some err
    stage := Stage.failedStage
    updatedAt := svc.clock }

/-- The full event trace of a `start` on the fresh service with uv missing
and its installer exiting 1. -/
def traceUvExitFail : List Ev := (start envUvExitFail svcFresh).2.2

/-- C4 counterexample: this run transitions into the terminal `failed`
stage — its trace contains a `StateSnapshot` whose `stage` is `failed` —
yet the trace contains no `StageChanged` event for `failed` at all, so the
transition into `failed` is not announced by a `StageChanged` immediately
followed by a matching snapshot. -/
theorem fail_stage_without_stage_event_cex :
    (traceUvExitFail.any fun e =>
      match e with
      | McpEnvInitEvent.state st => st.stage == Stage.failedStage
      | _ => false) = true ∧
    (traceUvExitFail.any fun e =>
      match e with
      | McpEnvInitEvent.stage s _ => s == Stage.failedStage
      | _ => false) = false := by
  constructor <;> rfl

/-- C4 amended: every transition performed through `setStage` emits a
`StageChanged` for the new stage immediately followed by a `StateSnapshot`
whose `stage` equals it; the `fail` transition instead writes
`stage = failed` and emits only a `StateSnapshot` (whose stage is
`failed`) — no `StageChanged` occurs anywhere in `fail`'s events. -/
theorem stage_snapshot_ordering :
    (∀ (svc : Svc) (stg : Stage),
      (setStage svc stg).2 =
        [McpEnvInitEvent.stage stg svc.clock,
          McpEnvInitEvent.state ((setStage svc stg).1.state)] ∧
      ((setStage svc stg).1.state).stage = stg) ∧
    (∀ (svc : Svc) (err : McpEnvInitError),
      ((fail svc err).2.head? = some (McpEnvInitEvent.state (failState svc err)) ∧
        (failState svc err).stage = Stage.failedStage) ∧
      ((fail svc err).2.all fun e =>
        match e with
        | McpEnvInitEvent.stage _ _ => false
        | _ => true) = true) := by
  constructor
  · intro svc stg
    exact ⟨rfl, rfl⟩
  · intro svc err
    cases h : err.suggestion with
    | none =>
        refine ⟨⟨?_, rfl⟩, ?_⟩ <;>
          simp [fail, failState, h, errorLog, warnLog, pushLog]
    | some sug =>
        refine ⟨⟨?_, rfl⟩, ?_⟩ <;>
          simp [fail, failState, h, errorLog, warnLog, pushLog]

/-! ### C8 -/

/-- C8 counterexample: a bun-installer spawn failure (thrown message
`boom`) yields the fixed network/permission/certificate suggestion both on
Windows and elsewhere — on Windows it is not the firewall/PowerShell
guidance the claim requires for both tools alike. -/
theorem bun_spawn_suggestion_cex :
    ((installBun true (Except.error "boom") svcFresh).2.1.state.error.map fun e => e.suggestion)
      = some (some (t "mcp.envInit.messages.checkNetworkPermissionCert")) ∧
    ((installBun false (Except.error "boom") svcFresh).2.1.state.error.map fun e => e.suggestion)
      = some (some (t "mcp.envInit.messages.checkNetworkPermissionCert")) ∧
    t "mcp.envInit.messages.checkNetworkPermissionCert"
      ≠ t "mcp.envInit.messages.checkPowerShellFirewall" := by
  refine ⟨?_, ?_, ?_⟩ <;> first
    | rfl
    | decide

/-- C8 amended: on an installer spawn failure with the state not already
failed, the uv installer's `FailureDetail` carries the platform-dependent
suggestion (firewall/PowerShell on Windows, network/proxy otherwise),
while the bun installer's carries the classifier result on the thrown
message with a platform-independent network/permission/certificate
fallback. -/
theorem spawn_suggestion_platform (isWin : Bool) (emsg : String) (svc : Svc)
    (h : svc.state.failed = false) :
    ((installUv isWin (Except.error emsg) svc).2.1.state.error.map fun e => e.suggestion)
      = some (some (if isWin then t "mcp.envInit.messages.checkPowerShellFirewall"
                    else t "mcp.envInit.messages.checkNetworkProxy")) ∧
    ((installBun isWin (Except.error emsg) svc).2.1.state.error.map fun e => e.suggestion)
      = some (some ((summarizeFailure isWin "" emsg).getD
          (t "mcp.envInit.messages.checkNetworkPermissionCert"))) := by
  constructor
  · simp [installUv, setStage, warnLog, pushLog, fail, errorLog, h]
  · simp [installBun, setStage, warnLog, pushLog, fail, errorLog, h]

/-- Witness for the amended C8 at concrete inputs. -/
theorem spawn_suggestion_platform_witness :
    ((installUv true (Except.error "boom") svcFresh).2.1.state.error.map fun e => e.suggestion)
      = some (some (t "mcp.envInit.messages.checkPowerShellFirewall")) ∧
    ((installBun true (Except.error "boom") svcFresh).2.1.state.error.map fun e => e.suggestion)
      = some (some ((summarizeFailure true "" "boom").getD
          (t "mcp.envInit.messages.checkNetworkPermissionCert"))) :=
  spawn_suggestion_platform true "boom" svcFresh rfl

/-! ### C9 -/

/-- The full event trace of a `start` on the fresh service with both tools
already present. -/
def traceAllPresent : List Ev := (start envAllPresent svcFresh).2.2

/-- C9 counterexample: in this run the snapshot emitted right after the uv
probe result is written shows `uvInstalled` flipping from `false` to
`true`, yet its `updatedAt` (7) is unchanged from the previous snapshot —
the probe-result mutation did not set `updatedAt` to the time of that
mutation. -/
theorem updatedAt_probe_mutation_cex :
    (((snapsOf traceAllPresent).get? 3).map fun st => (st.uvInstalled, st.updatedAt))
      = some (false, 7) ∧
    (((snapsOf traceAllPresent).get? 4).map fun st => (st.uvInstalled, st.updatedAt))
      = some (true, 7) := by
  constructor <;> rfl

/-- C9 amended: `updatedAt` is stamped with the mutation time by the
tracked mutations — stage transitions, log appends, and the `fail`
transition — but the direct probe-result writes to
`uvInstalled`/`bunInstalled` do not touch it, so `updatedAt` records the
time of the last tracked mutation, not of every mutation. -/
theorem updatedAt_tracked_mutations :
    (∀ (svc : Svc) (stg : Stage), (setStage svc stg).1.state.updatedAt = svc.clock) ∧
    (∀ (svc : Svc) (level : LogLevel) (msg : String) (src : Option LogSource),
      (pushLog svc level msg src).1.state.updatedAt = svc.clock + 1) ∧
    (∀ (svc : Svc) (err : McpEnvInitError),
      (fail svc err).2.head? = some (McpEnvInitEvent.state (failState svc err)) ∧
        (failState svc err).updatedAt = svc.clock) ∧
    ((((snapsOf traceAllPresent).get? 3).map fun st => (st.uvInstalled, st.updatedAt))
        = some (false, 7) ∧
      (((snapsOf traceAllPresent).get? 4).map fun st => (st.uvInstalled, st.updatedAt))
        = some (true, 7)) := by
  refine ⟨fun svc stg => rfl, fun svc level msg src => rfl, fun svc err => ⟨?_, rfl⟩,
    by rfl, by rfl⟩
  cases h : err.suggestion with
  | none => simp [fail, failState, h, errorLog, warnLog, pushLog]
  | some sug => simp [fail, failState, h, errorLog, warnLog, pushLog]

/-! ### C10 -/

/-- The full event trace of a `start` on the fresh service where uv is
missing, its installer succeeds, and the re-check finds both tools. -/
def traceInstallOk : List Ev := (start envInstallOk svcFresh).2.2

/-- C10 counterexample: in the no-need-install run, the trace's final event
is a `StateSnapshot` with `done = true`, and it is the only such snapshot —
so the first terminal snapshot *is* the final event of the run, and no
`LogAppended` or `StateSnapshot` follows it. -/
theorem terminal_snapshot_final_event_cex :
    (traceAllPresent.getLast?.map fun e =>
      match e with
      | McpEnvInitEvent.state st => st.done
      | _ => false) = some true ∧
    ((snapsOf traceAllPresent).filter fun st => st.done).length = 1 := by
  constructor <;> rfl

/-- C10 amended: the `fail` transition always emits its error log (a
`LogAppended` and another snapshot) after its terminal snapshot, and the
install-success path emits the init-complete info log and a snapshot after
its first `done = true` snapshot; but the no-need-install path ends with
its first `done = true` snapshot as the final event of the run. -/
theorem events_after_terminal_snapshot :
    (∀ (svc : Svc) (err : McpEnvInitError),
      (fail svc err).2.head? = some (McpEnvInitEvent.state (failState svc err)) ∧
      (failState svc err).done = true ∧
      ((fail svc err).2.get? 1).map (fun e =>
        match e with
        | McpEnvInitEvent.log l => l.level == LogLevel.error
        | _ => false) = some true) ∧
    (((snapsOf traceInstallOk).filter fun st => st.done).length = 2 ∧
      (traceInstallOk.reverse.get? 0).map (fun e =>
        match e with
        | McpEnvInitEvent.state st => st.done
        | _ => false) = some true ∧
      (traceInstallOk.reverse.get? 1).map (fun e =>
        match e with
        | McpEnvInitEvent.log l => l.level == LogLevel.info
        | _ => false) = some true ∧
      (traceInstallOk.reverse.get? 2).map (fun e =>
        match e with
        | McpEnvInitEvent.state st => st.done
        | _ => false) = some true) ∧
    ((traceAllPresent.getLast?.map fun e =>
        match e with
        | McpEnvInitEvent.state st => st.done
        | _ => false) = some true ∧
      ((snapsOf traceAllPresent).filter fun st => st.done).length = 1) := by
  refine ⟨fun svc err => ⟨?_, rfl, ?_⟩,
    ⟨by rfl, by rfl, by rfl, by rfl⟩, by rfl, by rfl⟩ <;>
    cases h : err.suggestion <;>
      simp [fail, failState, h, errorLog, warnLog, pushLog]

/-! ### C3 -/

/-- C3 (code bug, evaluated at the failing input): with uv missing and its
installer exiting 1 with stderr `boom`, the run's `fail` produces — and a
mid-run snapshot carries — the detailed `FailureDetail` with
`exitCode = 1`, the exact command line, and the capped stderr/stdout
tails; but the top-level catch in `start` then calls `fail` again with
only the thrown message, so the state `start` finally resolves with has
`failed = true` and `done = true` as claimed, yet its `error` is the bare
`{message: 'uv install failed'}` — `exitCode` and `stderrTail` are gone. -/
theorem installer_exit_detail_lost :
    (traceUvExitFail.any fun e =>
      match e with
      | McpEnvInitEvent.state st => st.error ==
          some { message := t "mcp.envInit.messages.uvInstallFailed"
                 command := some uvCommand
                 exitCode := some 1
                 stderrTail := some "boom"
                 stdoutTail := some ""
                 suggestion := none }
      | _ => false) = true ∧
    (start envUvExitFail svcFresh).2.1.state.failed = true ∧
    (start envUvExitFail svcFresh).2.1.state.done = true ∧
    (start envUvExitFail svcFresh).2.1.state.error =
      some { message := "uv install failed", command := none, exitCode := none,
             stderrTail := none, stdoutTail := none, suggestion := none } := by
  refine ⟨?_, ?_, ?_, ?_⟩ <;> rfl

/-! ### C7 -/

/-- C7 (start never rejects): a launching `start` call always settles —
whatever the environment does, the result is a `completed` value carrying
the fresh handle, never a propagated throw; if the run rejected with
message `m`, the state `start` resolves with is the terminal failed state
holding `{message: m}`; and in every case the in-flight handle is cleared
when the run concludes, so a later `start` can launch a fresh run. -/
theorem start_never_rejects (env : Env) (svc : Svc)
    (h1 : svc.running = none) (h2 : readyState svc.state = false) :
    (start env svc).2.1.running = none ∧
    (∃ st, (start env svc).1 = StartRet.completed svc.nextId st) ∧
    (∀ m, (run env (launchSetup svc).1).1 = Except.error m →
      (start env svc).2.1.state.failed = true ∧
      (start env svc).2.1.state.done = true ∧
      (start env svc).2.1.state.error = some
        { message := m, command := none, exitCode := none,
          stderrTail := none, stdoutTail := none, suggestion := none }) := by
  have hstart : start env svc =
      (match run env (launchSetup svc).1 with
      | (Except.ok stR, svcR, evR) =>
          (StartRet.completed svc.nextId stR, { svcR with running := none },
            (launchSetup svc).2 ++ evR)
      | (Except.error m, svcR, evR) =>
          let rF := fail svcR
            { message := m, command := none, exitCode := none,
              stderrTail := none, stdoutTail := none, suggestion := none }
          (StartRet.completed svc.nextId rF.1.state, { rF.1 with running := none },
            (launchSetup svc).2 ++ evR ++ rF.2)) := by
    simp [start, h1, h2]
  rcases hr : run env (launchSetup svc).1 with ⟨res, svcR, evR⟩
  cases res with
  | ok stR =>
      rw [hstart, hr]
      refine ⟨rfl, ⟨stR, rfl⟩, fun m hm => ?_⟩
      exact absurd hm (by simp)
  | error m0 =>
      rw [hstart, hr]
      refine ⟨rfl, ⟨_, rfl⟩, fun m hm => ?_⟩
      have hm2 : (Except.error m0 : Except String McpEnvInitState) = Except.error m := hm
      injection hm2 with hmm
      subst hmm
      exact ⟨rfl, rfl, rfl⟩

/-- Witness for C7: uv missing, its installer spawn throwing `boom`. -/
theorem start_never_rejects_witness :
    (start envUvSpawnFail svcFresh).2.1.running = none ∧
    (∃ st, (start envUvSpawnFail svcFresh).1 = StartRet.completed svcFresh.nextId st) ∧
    ((start envUvSpawnFail svcFresh).2.1.state.failed = true ∧
      (start envUvSpawnFail svcFresh).2.1.state.done = true ∧
      (start envUvSpawnFail svcFresh).2.1.state.error = some
        { message := "boom", command := none, exitCode := none,
          stderrTail := none, stdoutTail := none, suggestion := none }) := by
  have h := start_never_rejects envUvSpawnFail svcFresh rfl (by rfl)
  exact ⟨h.1, h.2.1, h.2.2 "boom" (by rfl)⟩

/-! ### C5 infrastructure -/

theorem invB_eq_of_coreFlags {a b : McpEnvInitState} (h : coreFlags a = coreFlags b) :
    InvB a = InvB b := by
  simp only [coreFlags, Prod.mk.injEq] at h
  obtain ⟨h1, h2, h3, h4, h5, h6⟩ := h
  simp [InvB, h1, h2, h3, h4, h5, h6]

theorem snapsOf_append (a b : List Ev) : snapsOf (a ++ b) = snapsOf a ++ snapsOf b :=
  List.filterMap_append a b _

theorem snaps_all_append {a b : List Ev} {P : McpEnvInitState → Prop}
    (ha : ∀ st ∈ snapsOf a, P st) (hb : ∀ st ∈ snapsOf b, P st) :
    ∀ st ∈ snapsOf (a ++ b), P st := by
  intro st h
  rw [snapsOf_append] at h
  rcases List.mem_append.1 h with h | h
  · exact ha st h
  · exact hb st h

theorem pushLog_coreFlags (svc : Svc) (level : LogLevel) (msg : String)
    (src : Option LogSource) :
    coreFlags (pushLog svc level msg src).1.state = coreFlags svc.state := rfl

theorem setStage_coreFlags (svc : Svc) (stg : Stage) :
    coreFlags (setStage svc stg).1.state = coreFlags svc.state := rfl

theorem pushLog_snaps (svc : Svc) (level : LogLevel) (msg : String) (src : Option LogSource) :
    ∀ st ∈ snapsOf (pushLog svc level msg src).2, coreFlags st = coreFlags svc.state := by
  intro st h
  simp only [pushLog, snapsOf, List.filterMap] at h
  simp at h
  subst h
  rfl

theorem setStage_snaps (svc : Svc) (stg : Stage) :
    ∀ st ∈ snapsOf (setStage svc stg).2, coreFlags st = coreFlags svc.state := by
  intro st h
  simp only [setStage, snapsOf, List.filterMap] at h
  simp at h
  subst h
  rfl

theorem fail_coreFlags (svc : Svc) (err : McpEnvInitError) :
    coreFlags (fail svc err).1.state =
      (true, true, false, svc.state.uvInstalled, svc.state.bunInstalled, some err) := by
  cases h : err.suggestion with
  | none => simp [fail, h, errorLog, warnLog, pushLog, coreFlags]
  | some sug => simp [fail, h, errorLog, warnLog, pushLog, coreFlags]

theorem fail_snaps (svc : Svc) (err : McpEnvInitError) :
    ∀ st ∈ snapsOf (fail svc err).2,
      coreFlags st =
        (true, true, false, svc.state.uvInstalled, svc.state.bunInstalled, some err) := by
  intro st h
  cases hs : err.suggestion with
  | none =>
      simp [fail, hs, errorLog, warnLog, pushLog, snapsOf] at h
      rcases h with h | h <;> subst h <;> rfl
  | some sug =>
      simp [fail, hs, errorLog, warnLog, pushLog, snapsOf] at h
      rcases h with h | h | h <;> subst h <;> rfl

theorem invB_of_failFlags {st : McpEnvInitState} {u b : Bool} {err : McpEnvInitError}
    (h : coreFlags st = (true, true, false, u, b, some err)) (hub : (u && b) = false) :
    InvB st = true := by
  simp only [coreFlags, Prod.mk.injEq] at h
  obtain ⟨h1, h2, h3, h4, h5, h6⟩ := h
  simp [InvB, h1, h2, h3, h4, h5, h6, hub]

theorem logLines_spec (tool : LogSource) (isErr : Bool) (lines : List String) :
    ∀ svc : Svc,
      coreFlags (logLines tool isErr lines svc).1.state = coreFlags svc.state ∧
      ∀ st ∈ snapsOf (logLines tool isErr lines svc).2, coreFlags st = coreFlags svc.state := by
  induction lines with
  | nil =>
      intro svc
      exact ⟨rfl, by intro st h; simp [logLines, snapsOf] at h⟩
  | cons line rest ih =>
      intro svc
      by_cases hb : trimStr line = ""
      · have hev : (logLines tool isErr (line :: rest) svc)
            = ((logLines tool isErr rest svc).1,
                [] ++ (logLines tool isErr rest svc).2) := by
          simp [logLines, hb]
        rw [hev]
        exact ⟨(ih svc).1, by simpa using (ih svc).2⟩
      · cases isErr
        · have hev : (logLines tool false (line :: rest) svc)
              = ((logLines tool false rest (infoLog svc (trimStr line) (some tool)).1).1,
                  (infoLog svc (trimStr line) (some tool)).2 ++
                    (logLines tool false rest (infoLog svc (trimStr line) (some tool)).1).2) := by
            simp [logLines, hb]
          rw [hev]
          constructor
          · rw [(ih _).1]
            exact pushLog_coreFlags svc LogLevel.info (trimStr line) (some tool)
          · refine snaps_all_append ?_ ?_
            · exact pushLog_snaps svc LogLevel.info (trimStr line) (some tool)
            · intro st h
              rw [(ih _).2 st h]
              exact pushLog_coreFlags svc LogLevel.info (trimStr line) (some tool)
        · have hev : (logLines tool true (line :: rest) svc)
              = ((logLines tool true rest (warnLog svc (trimStr line) (some tool)).1).1,
                  (warnLog svc (trimStr line) (some tool)).2 ++
                    (logLines tool true rest (warnLog svc (trimStr line) (some tool)).1).2) := by
            simp [logLines, hb]
          rw [hev]
          constructor
          · rw [(ih _).1]
            exact pushLog_coreFlags svc LogLevel.warn (trimStr line) (some tool)
          · refine snaps_all_append ?_ ?_
            · exact pushLog_snaps svc LogLevel.warn (trimStr line) (some tool)
            · intro st h
              rw [(ih _).2 st h]
              exact pushLog_coreFlags svc LogLevel.warn (trimStr line) (some tool)

theorem processChunks_spec (tool : LogSource) (chunks : List (Bool × String)) :
    ∀ svc : Svc,
      coreFlags (processChunks tool chunks svc).1.state = coreFlags svc.state ∧
      ∀ st ∈ snapsOf (processChunks tool chunks svc).2, coreFlags st = coreFlags svc.state := by
  induction chunks with
  | nil =>
      intro svc
      exact ⟨rfl, by intro st h; simp [processChunks, snapsOf] at h⟩
  | cons c rest ih =>
      intro svc
      obtain ⟨isErr, chunk⟩ := c
      have hev : (processChunks tool ((isErr, chunk) :: rest) svc)
          = ((processChunks tool rest (logLines tool isErr (splitLines chunk) svc).1).1,
              (logLines tool isErr (splitLines chunk) svc).2 ++
                (processChunks tool rest (logLines tool isErr (splitLines chunk) svc).1).2) := by
        simp [processChunks]
      rw [hev]
      constructor
      · rw [(ih _).1]
        exact (logLines_spec tool isErr (splitLines chunk) svc).1
      · refine snaps_all_append ?_ ?_
        · exact (logLines_spec tool isErr (splitLines chunk) svc).2
        · intro st h
          rw [(ih _).2 st h]
          exact (logLines_spec tool isErr (splitLines chunk) svc).1

theorem coreFlags_fields {a b : McpEnvInitState} (h : coreFlags a = coreFlags b) :
    a.done = b.done ∧ a.failed = b.failed ∧ a.installing = b.installing ∧
    a.uvInstalled = b.uvInstalled ∧ a.bunInstalled = b.bunInstalled ∧ a.error = b.error := by
  simp only [coreFlags, Prod.mk.injEq] at h
  exact h

theorem invB_of_core {st base : McpEnvInitState} (h : coreFlags st = coreFlags base)
    (hb : InvB base = true) : InvB st = true := by
  rw [invB_eq_of_coreFlags h]
  exact hb

theorem fail_fields (svc : Svc) (err : McpEnvInitError) :
    (fail svc err).1.state.uvInstalled = svc.state.uvInstalled ∧
    (fail svc err).1.state.bunInstalled = svc.state.bunInstalled ∧
    (fail svc err).1.state.failed = true ∧
    (fail svc err).1.state.done = true ∧
    (fail svc err).1.state.error = some err := by
  cases h : err.suggestion with
  | none => simp [fail, h, errorLog, warnLog, pushLog]
  | some sug => simp [fail, h, errorLog, warnLog, pushLog]

theorem installUv_spec (isWin : Bool) (res : Except String SpawnResult) (svc : Svc)
    (hf : svc.state.failed = false) (hu : svc.state.uvInstalled = false)
    (hI : InvB svc.state = true) :
    InvB (installUv isWin res svc).2.1.state = true ∧
    (∀ st ∈ snapsOf (installUv isWin res svc).2.2, InvB st = true) ∧
    (installUv isWin res svc).2.1.state.uvInstalled = false ∧
    (installUv isWin res svc).2.1.state.bunInstalled = svc.state.bunInstalled ∧
    (∀ u, (installUv isWin res svc).1 = Except.ok u →
      coreFlags (installUv isWin res svc).2.1.state = coreFlags svc.state) := by
  have hub : (svc.state.uvInstalled && svc.state.bunInstalled) = false := by
    rw [hu]
    rfl
  have hcf : coreFlags (setStage (warnLog (setStage svc Stage.startInstallUv).1
      (t "mcp.envInit.messages.startInstallUv") (some LogSource.uv)).1
      Stage.installingUv).1.state = coreFlags svc.state := rfl
  have hfC := coreFlags_fields hcf
  have hubC : ((setStage (warnLog (setStage svc Stage.startInstallUv).1
        (t "mcp.envInit.messages.startInstallUv") (some LogSource.uv)).1
        Stage.installingUv).1.state.uvInstalled &&
      (setStage (warnLog (setStage svc Stage.startInstallUv).1
        (t "mcp.envInit.messages.startInstallUv") (some LogSource.uv)).1
        Stage.installingUv).1.state.bunInstalled) = false := by
    rw [hfC.2.2.2.1, hfC.2.2.2.2.1]
    exact hub
  cases res with
  | error emsg =>
      simp only [installUv]
      split
      case isTrue hcond =>
        rw [show (setStage (warnLog (setStage svc Stage.startInstallUv).1
          (t "mcp.envInit.messages.startInstallUv") (some LogSource.uv)).1
          Stage.installingUv).1.state.failed = false from hf] at hcond
        simp at hcond
      case isFalse hcond =>
        refine ⟨?_, ?_, ?_, ?_, ?_⟩
        · exact invB_of_failFlags (fail_coreFlags _ _) hubC
        · refine snaps_all_append (snaps_all_append (snaps_all_append ?_ ?_) ?_) ?_
          · intro st h
            exact invB_of_core ((setStage_snaps _ _ st h).trans rfl) hI
          · intro st h
            exact invB_of_core ((pushLog_snaps _ _ _ _ st h).trans rfl) hI
          · intro st h
            exact invB_of_core ((setStage_snaps _ _ st h).trans rfl) hI
          · intro st h
            exact invB_of_failFlags (fail_snaps _ _ st h) hubC
        · rw [(fail_fields _ _).1, hfC.2.2.2.1]
          exact hu
        · rw [(fail_fields _ _).2.1, hfC.2.2.2.2.1]
        · intro u hok
          exact absurd hok (by simp)
  | ok sr =>
      have hcfD : coreFlags (processChunks LogSource.uv sr.chunks
          (setStage (warnLog (setStage svc Stage.startInstallUv).1
            (t "mcp.envInit.messages.startInstallUv") (some LogSource.uv)).1
            Stage.installingUv).1).1.state = coreFlags svc.state :=
        (processChunks_spec LogSource.uv sr.chunks _).1.trans hcf
      have hfD := coreFlags_fields hcfD
      have hubD : ((processChunks LogSource.uv sr.chunks
            (setStage (warnLog (setStage svc Stage.startInstallUv).1
              (t "mcp.envInit.messages.startInstallUv") (some LogSource.uv)).1
              Stage.installingUv).1).1.state.uvInstalled &&
          (processChunks LogSource.uv sr.chunks
            (setStage (warnLog (setStage svc Stage.startInstallUv).1
              (t "mcp.envInit.messages.startInstallUv") (some LogSource.uv)).1
              Stage.installingUv).1).1.state.bunInstalled) = false := by
        rw [hfD.2.2.2.1, hfD.2.2.2.2.1]
        exact hub
      simp only [installUv]
      split
      case isTrue hcond =>
        refine ⟨?_, ?_, ?_, ?_, ?_⟩
        · exact invB_of_failFlags (fail_coreFlags _ _) hubD
        · refine snaps_all_append (snaps_all_append (snaps_all_append
              (snaps_all_append ?_ ?_) ?_) ?_) ?_
          · intro st h
            exact invB_of_core ((setStage_snaps _ _ st h).trans rfl) hI
          · intro st h
            exact invB_of_core ((pushLog_snaps _ _ _ _ st h).trans rfl) hI
          · intro st h
            exact invB_of_core ((setStage_snaps _ _ st h).trans rfl) hI
          · intro st h
            exact invB_of_core (((processChunks_spec LogSource.uv sr.chunks _).2 st h).trans hcf) hI
          · intro st h
            exact invB_of_failFlags (fail_snaps _ _ st h) hubD
        · rw [(fail_fields _ _).1, hfD.2.2.2.1]
          exact hu
        · rw [(fail_fields _ _).2.1, hfD.2.2.2.2.1]
        · intro u hok
          exact absurd hok (by simp)
      case isFalse hcond =>
        have hcore : coreFlags (infoLog (processChunks LogSource.uv sr.chunks
            (setStage (warnLog (setStage svc Stage.startInstallUv).1
              (t "mcp.envInit.messages.startInstallUv") (some LogSource.uv)).1
              Stage.installingUv).1).1
            (t "mcp.envInit.messages.uvInstallScriptCompleted") (some LogSource.uv)).1.state
            = coreFlags svc.state :=
          (pushLog_coreFlags _ _ _ _).trans hcfD
        have hfF := coreFlags_fields hcore
        refine ⟨?_, ?_, ?_, ?_, ?_⟩
        · exact invB_of_core hcore hI
        · refine snaps_all_append (snaps_all_append (snaps_all_append
              (snaps_all_append ?_ ?_) ?_) ?_) ?_
          · intro st h
            exact invB_of_core ((setStage_snaps _ _ st h).trans rfl) hI
          · intro st h
            exact invB_of_core ((pushLog_snaps _ _ _ _ st h).trans rfl) hI
          · intro st h
            exact invB_of_core ((setStage_snaps _ _ st h).trans rfl) hI
          · intro st h
            exact invB_of_core (((processChunks_spec LogSource.uv sr.chunks _).2 st h).trans hcf) hI
          · intro st h
            exact invB_of_core ((pushLog_snaps _ _ _ _ st h).trans hcfD) hI
        · rw [hfF.2.2.2.1]
          exact hu
        · rw [hfF.2.2.2.2.1]
        · intro u hok
          exact hcore

theorem installBun_spec (isWin : Bool) (res : Except String SpawnResult) (svc : Svc)
    (hf : svc.state.failed = false) (hb : svc.state.bunInstalled = false)
    (hI : InvB svc.state = true) :
    InvB (installBun isWin res svc).2.1.state = true ∧
    (∀ st ∈ snapsOf (installBun isWin res svc).2.2, InvB st = true) ∧
    (installBun isWin res svc).2.1.state.bunInstalled = false ∧
    (installBun isWin res svc).2.1.state.uvInstalled = svc.state.uvInstalled ∧
    (∀ u, (installBun isWin res svc).1 = Except.ok u →
      coreFlags (installBun isWin res svc).2.1.state = coreFlags svc.state) := by
  have hub : (svc.state.uvInstalled && svc.state.bunInstalled) = false := by
    rw [hb]
    simp
  have hcf : coreFlags (setStage (warnLog (setStage svc Stage.startInstallBun).1
      (t "mcp.envInit.messages.startInstallBun") (some LogSource.bun)).1
      Stage.installingBun).1.state = coreFlags svc.state := rfl
  have hfC := coreFlags_fields hcf
  have hubC : ((setStage (warnLog (setStage svc Stage.startInstallBun).1
        (t "mcp.envInit.messages.startInstallBun") (some LogSource.bun)).1
        Stage.installingBun).1.state.uvInstalled &&
      (setStage (warnLog (setStage svc Stage.startInstallBun).1
        (t "mcp.envInit.messages.startInstallBun") (some LogSource.bun)).1
        Stage.installingBun).1.state.bunInstalled) = false := by
    rw [hfC.2.2.2.1, hfC.2.2.2.2.1]
    exact hub
  cases res with
  | error emsg =>
      simp only [installBun]
      split
      case isTrue hcond =>
        rw [show (setStage (warnLog (setStage svc Stage.startInstallBun).1
          (t "mcp.envInit.messages.startInstallBun") (some LogSource.bun)).1
          Stage.installingBun).1.state.failed = false from hf] at hcond
        simp at hcond
      case isFalse hcond =>
        refine ⟨?_, ?_, ?_, ?_, ?_⟩
        · exact invB_of_failFlags (fail_coreFlags _ _) hubC
        · refine snaps_all_append (snaps_all_append (snaps_all_append ?_ ?_) ?_) ?_
          · intro st h
            exact invB_of_core ((setStage_snaps _ _ st h).trans rfl) hI
          · intro st h
            exact invB_of_core ((pushLog_snaps _ _ _ _ st h).trans rfl) hI
          · intro st h
            exact invB_of_core ((setStage_snaps _ _ st h).trans rfl) hI
          · intro st h
            exact invB_of_failFlags (fail_snaps _ _ st h) hubC
        · rw [(fail_fields _ _).2.1, hfC.2.2.2.2.1]
          exact hb
        · rw [(fail_fields _ _).1, hfC.2.2.2.1]
        · intro u hok
          exact absurd hok (by simp)
  | ok sr =>
      have hcfD : coreFlags (processChunks LogSource.bun sr.chunks
          (setStage (warnLog (setStage svc Stage.startInstallBun).1
            (t "mcp.envInit.messages.startInstallBun") (some LogSource.bun)).1
            Stage.installingBun).1).1.state = coreFlags svc.state :=
        (processChunks_spec LogSource.bun sr.chunks _).1.trans hcf
      have hfD := coreFlags_fields hcfD
      have hubD : ((processChunks LogSource.bun sr.chunks
            (setStage (warnLog (setStage svc Stage.startInstallBun).1
              (t "mcp.envInit.messages.startInstallBun") (some LogSource.bun)).1
              Stage.installingBun).1).1.state.uvInstalled &&
          (processChunks LogSource.bun sr.chunks
            (setStage (warnLog (setStage svc Stage.startInstallBun).1
              (t "mcp.envInit.messages.startInstallBun") (some LogSource.bun)).1
              Stage.installingBun).1).1.state.bunInstalled) = false := by
        rw [hfD.2.2.2.1, hfD.2.2.2.2.1]
        exact hub
      simp only [installBun]
      split
      case isTrue hcond =>
        refine ⟨?_, ?_, ?_, ?_, ?_⟩
        · exact invB_of_failFlags (fail_coreFlags _ _) hubD
        · refine snaps_all_append (snaps_all_append (snaps_all_append
              (snaps_all_append ?_ ?_) ?_) ?_) ?_
          · intro st h
            exact invB_of_core ((setStage_snaps _ _ st h).trans rfl) hI
          · intro st h
            exact invB_of_core ((pushLog_snaps _ _ _ _ st h).trans rfl) hI
          · intro st h
            exact invB_of_core ((setStage_snaps _ _ st h).trans rfl) hI
          · intro st h
            exact invB_of_core (((processChunks_spec LogSource.bun sr.chunks _).2 st h).trans hcf) hI
          · intro st h
            exact invB_of_failFlags (fail_snaps _ _ st h) hubD
        · rw [(fail_fields _ _).2.1, hfD.2.2.2.2.1]
          exact hb
        · rw [(fail_fields _ _).1, hfD.2.2.2.1]
        · intro u hok
          exact absurd hok (by simp)
      case isFalse hcond =>
        have hcore : coreFlags (infoLog (processChunks LogSource.bun sr.chunks
            (setStage (warnLog (setStage svc Stage.startInstallBun).1
              (t "mcp.envInit.messages.startInstallBun") (some LogSource.bun)).1
              Stage.installingBun).1).1
            (t "mcp.envInit.messages.bunInstallScriptCompleted") (some LogSource.bun)).1.state
            = coreFlags svc.state :=
          (pushLog_coreFlags _ _ _ _).trans hcfD
        have hfF := coreFlags_fields hcore
        refine ⟨?_, ?_, ?_, ?_, ?_⟩
        · exact invB_of_core hcore hI
        · refine snaps_all_append (snaps_all_append (snaps_all_append
              (snaps_all_append ?_ ?_) ?_) ?_) ?_
          · intro st h
            exact invB_of_core ((setStage_snaps _ _ st h).trans rfl) hI
          · intro st h
            exact invB_of_core ((pushLog_snaps _ _ _ _ st h).trans rfl) hI
          · intro st h
            exact invB_of_core ((setStage_snaps _ _ st h).trans rfl) hI
          · intro st h
            exact invB_of_core (((processChunks_spec LogSource.bun sr.chunks _).2 st h).trans hcf) hI
          · intro st h
            exact invB_of_core ((pushLog_snaps _ _ _ _ st h).trans hcfD) hI
        · rw [hfF.2.2.2.2.1]
          exact hb
        · rw [hfF.2.2.2.1]
        · intro u hok
          exact hcore

theorem invB_of_transient {st : McpEnvInitState} (hd : st.done = false)
    (hf : st.failed = false) (he : st.error = none) : InvB st = true := by
  simp [InvB, hd, hf, he]

theorem invB_of_success {st : McpEnvInitState} (hdone : st.done = true)
    (hf : st.failed = false) (hu : st.uvInstalled = true) (hb : st.bunInstalled = true)
    (hi : st.installing = false) (he : st.error = none) : InvB st = true := by
  simp [InvB, hdone, hf, hu, hb, hi, he]

theorem snaps_all_singleton {st0 : McpEnvInitState} {P : McpEnvInitState → Prop}
    (h : P st0) : ∀ st ∈ snapsOf [McpEnvInitEvent.state st0], P st := by
  intro st hm
  simp [snapsOf] at hm
  subst hm
  exact h

theorem installUv_specE (isWin : Bool) (res : Except String SpawnResult) (svc : Svc)
    (r : Except String Unit) (svcO : Svc) (evO : List Ev)
    (heq : installUv isWin res svc = (r, svcO, evO))
    (hf : svc.state.failed = false) (hu : svc.state.uvInstalled = false)
    (hI : InvB svc.state = true) :
    InvB svcO.state = true ∧ (∀ st ∈ snapsOf evO, InvB st = true) ∧
    svcO.state.uvInstalled = false ∧ svcO.state.bunInstalled = svc.state.bunInstalled ∧
    (∀ u, r = Except.ok u → coreFlags svcO.state = coreFlags svc.state) := by
  have h := installUv_spec isWin res svc hf hu hI
  rw [heq] at h
  exact h

theorem installBun_specE (isWin : Bool) (res : Except String SpawnResult) (svc : Svc)
    (r : Except String Unit) (svcO : Svc) (evO : List Ev)
    (heq : installBun isWin res svc = (r, svcO, evO))
    (hf : svc.state.failed = false) (hb : svc.state.bunInstalled = false)
    (hI : InvB svc.state = true) :
    InvB svcO.state = true ∧ (∀ st ∈ snapsOf evO, InvB st = true) ∧
    svcO.state.bunInstalled = false ∧ svcO.state.uvInstalled = svc.state.uvInstalled ∧
    (∀ u, r = Except.ok u → coreFlags svcO.state = coreFlags svc.state) := by
  have h := installBun_spec isWin res svc hf hb hI
  rw [heq] at h
  exact h

set_option maxHeartbeats 1000000

theorem invB_snap_transient {st base : McpEnvInitState}
    (hcv : coreFlags st = coreFlags base)
    (hd : base.done = false) (hf : base.failed = false) (he : base.error = none) :
    InvB st = true := by
  have hc := coreFlags_fields hcv
  exact invB_of_transient (hc.1.trans hd) (hc.2.1.trans hf) (hc.2.2.2.2.2.trans he)

theorem run_spec (env : Env) (svc : Svc)
    (hd : svc.state.done = false) (hf : svc.state.failed = false)
    (he : svc.state.error = none) :
    InvB (run env svc).2.1.state = true ∧
    (∀ st ∈ snapsOf (run env svc).2.2, InvB st = true) ∧
    (∀ m, (run env svc).1 = Except.error m →
      ((run env svc).2.1.state.uvInstalled && (run env svc).2.1.state.bunInstalled) = false) := by
  have hI : InvB svc.state = true := invB_of_transient hd hf he
  cases hUv : env.uvxExists1 || env.uvExists1 with
  | true =>
      cases hBun : env.bunExists1 with
      | true =>
          simp only [run, hUv, hBun, Bool.not_true, Bool.not_false, Bool.and_true,
            Bool.true_and, Bool.and_false, Bool.false_and, if_true, if_false]
          refine ⟨?_, ?_, ?_⟩
          · exact invB_of_success rfl rfl rfl rfl rfl he
          · refine snaps_all_append (snaps_all_append (snaps_all_append (snaps_all_append
              (snaps_all_append (snaps_all_append (snaps_all_append (snaps_all_append
              (snaps_all_append (snaps_all_append (snaps_all_append
                ?_ ?_) ?_) ?_) ?_) ?_) ?_) ?_) ?_) ?_) ?_) ?_
            · intro st h
              exact invB_snap_transient (setStage_snaps _ _ st h) hd hf he
            · intro st h
              exact invB_snap_transient (pushLog_snaps _ _ _ _ st h) hd hf he
            · exact snaps_all_singleton (invB_of_transient hd hf he)
            · intro st h
              exact invB_snap_transient (pushLog_snaps _ _ _ _ st h) hd hf he
            · intro st h
              exact invB_snap_transient (setStage_snaps _ _ st h) hd hf he
            · intro st h
              exact invB_snap_transient (pushLog_snaps _ _ _ _ st h) hd hf he
            · exact snaps_all_singleton (invB_of_transient hd hf he)
            · intro st h
              exact invB_snap_transient (pushLog_snaps _ _ _ _ st h) hd hf he
            · intro st h
              exact invB_snap_transient (setStage_snaps _ _ st h) hd hf he
            · intro st h
              exact invB_snap_transient (pushLog_snaps _ _ _ _ st h) hd hf he
            · intro st h
              exact invB_snap_transient (setStage_snaps _ _ st h) hd hf he
            · exact snaps_all_singleton (invB_of_success rfl rfl rfl rfl rfl he)
          · intro m hm
            exact absurd hm (by simp)
      | false =>
          simp only [run, hUv, hBun, Bool.not_true, Bool.not_false, Bool.and_true,
            Bool.true_and, Bool.and_false, Bool.false_and, Bool.false_eq_true,
            Bool.true_eq_false, eq_self_iff_true, if_true, if_false, ite_true, ite_false,
            List.append_nil]
          split
          next m0 svcE evE heq =>
            have specB := installBun_specE env.isWin env.bunInstallRes _ _ _ _ heq hf rfl
              (invB_of_transient hd hf he)
            refine ⟨specB.1, ?_, ?_⟩
            · exact (snaps_all_append (snaps_all_append (snaps_all_append (snaps_all_append (snaps_all_append (snaps_all_append (snaps_all_append (snaps_all_append (snaps_all_append (snaps_all_append (snaps_all_append (fun st h => invB_snap_transient (setStage_snaps _ _ st h) hd hf he)
                (fun st h => invB_snap_transient (pushLog_snaps _ _ _ _ st h) hd hf he))
                (snaps_all_singleton (invB_of_transient hd hf he)))
                (fun st h => invB_snap_transient (pushLog_snaps _ _ _ _ st h) hd hf he))
                (fun st h => invB_snap_transient (setStage_snaps _ _ st h) hd hf he))
                (fun st h => invB_snap_transient (pushLog_snaps _ _ _ _ st h) hd hf he))
                (snaps_all_singleton (invB_of_transient hd hf he)))
                (fun st h => invB_snap_transient (pushLog_snaps _ _ _ _ st h) hd hf he))
                (fun st h => invB_snap_transient (setStage_snaps _ _ st h) hd hf he))
                (fun st h => invB_snap_transient (pushLog_snaps _ _ _ _ st h) hd hf he))
                (snaps_all_singleton (invB_of_transient hd hf he)))
                specB.2.1)
            · intro m hm
              rw [specB.2.2.1]
              simp
          next u0 svcB evB heq =>
            have specB := installBun_specE env.isWin env.bunInstallRes _ _ _ _ heq hf rfl
              (invB_of_transient hd hf he)
            have coreB := specB.2.2.2.2 u0 rfl
            have hcB := coreFlags_fields coreB
            have hdB : svcB.state.done = false := hcB.1.trans hd
            have hfB : svcB.state.failed = false := hcB.2.1.trans hf
            have heB : svcB.state.error = none := hcB.2.2.2.2.2.trans he
            split
            next hcond =>
              have hub14 : ((env.uvxExists2 || env.uvExists2) && env.bunExists2) = false := by
                cases hx : env.uvxExists2 <;> cases hy : env.uvExists2 <;>
                  cases hz : env.bunExists2 <;>
                    simp [hx, hy, hz] at hcond ⊢
              refine ⟨invB_of_failFlags (fail_coreFlags _ _) hub14, ?_, ?_⟩
              · exact (snaps_all_append (snaps_all_append (snaps_all_append (snaps_all_append (snaps_all_append (snaps_all_append (snaps_all_append (snaps_all_append (snaps_all_append (snaps_all_append (snaps_all_append (snaps_all_append (snaps_all_append (snaps_all_append (fun st h => invB_snap_transient (setStage_snaps _ _ st h) hd hf he)
                (fun st h => invB_snap_transient (pushLog_snaps _ _ _ _ st h) hd hf he))
                (snaps_all_singleton (invB_of_transient hd hf he)))
                (fun st h => invB_snap_transient (pushLog_snaps _ _ _ _ st h) hd hf he))
                (fun st h => invB_snap_transient (setStage_snaps _ _ st h) hd hf he))
                (fun st h => invB_snap_transient (pushLog_snaps _ _ _ _ st h) hd hf he))
                (snaps_all_singleton (invB_of_transient hd hf he)))
                (fun st h => invB_snap_transient (pushLog_snaps _ _ _ _ st h) hd hf he))
                (fun st h => invB_snap_transient (setStage_snaps _ _ st h) hd hf he))
                (fun st h => invB_snap_transient (pushLog_snaps _ _ _ _ st h) hd hf he))
                (snaps_all_singleton (invB_of_transient hd hf he)))
                specB.2.1)
                (fun st h => invB_snap_transient (setStage_snaps _ _ st h) hdB hfB heB))
                (fun st h => invB_snap_transient (pushLog_snaps _ _ _ _ st h) hdB hfB heB))
                (fun st h => invB_of_failFlags (fail_snaps _ _ st h) hub14))
              · intro m hm
                exact absurd hm (by simp)
            next hcond =>
              have hok2 : (env.uvxExists2 || env.uvExists2) = true ∧ env.bunExists2 = true := by
                cases hx : env.uvxExists2 <;> cases hy : env.uvExists2 <;>
                  cases hz : env.bunExists2 <;>
                    simp [hx, hy, hz] at hcond ⊢
              refine ⟨invB_of_success rfl rfl hok2.1 hok2.2 rfl heB, ?_, ?_⟩
              · exact (snaps_all_append (snaps_all_append (snaps_all_append (snaps_all_append (snaps_all_append (snaps_all_append (snaps_all_append (snaps_all_append (snaps_all_append (snaps_all_append (snaps_all_append (snaps_all_append (snaps_all_append (snaps_all_append (snaps_all_append (snaps_all_append (fun st h => invB_snap_transient (setStage_snaps _ _ st h) hd hf he)
                (fun st h => invB_snap_transient (pushLog_snaps _ _ _ _ st h) hd hf he))
                (snaps_all_singleton (invB_of_transient hd hf he)))
                (fun st h => invB_snap_transient (pushLog_snaps _ _ _ _ st h) hd hf he))
                (fun st h => invB_snap_transient (setStage_snaps _ _ st h) hd hf he))
                (fun st h => invB_snap_transient (pushLog_snaps _ _ _ _ st h) hd hf he))
                (snaps_all_singleton (invB_of_transient hd hf he)))
                (fun st h => invB_snap_transient (pushLog_snaps _ _ _ _ st h) hd hf he))
                (fun st h => invB_snap_transient (setStage_snaps _ _ st h) hd hf he))
                (fun st h => invB_snap_transient (pushLog_snaps _ _ _ _ st h) hd hf he))
                (snaps_all_singleton (invB_of_transient hd hf he)))
                specB.2.1)
                (fun st h => invB_snap_transient (setStage_snaps _ _ st h) hdB hfB heB))
                (fun st h => invB_snap_transient (pushLog_snaps _ _ _ _ st h) hdB hfB heB))
                (fun st h => invB_snap_transient (setStage_snaps _ _ st h) hdB hfB heB))
                (snaps_all_singleton (invB_of_success rfl rfl hok2.1 hok2.2 rfl heB)))
                (fun st h =>
                  invB_of_success ((coreFlags_fields (pushLog_snaps _ _ _ _ st h)).1.trans rfl)
                    ((coreFlags_fields (pushLog_snaps _ _ _ _ st h)).2.1.trans rfl)
                    ((coreFlags_fields (pushLog_snaps _ _ _ _ st h)).2.2.2.1.trans hok2.1)
                    ((coreFlags_fields (pushLog_snaps _ _ _ _ st h)).2.2.2.2.1.trans hok2.2)
                    ((coreFlags_fields (pushLog_snaps _ _ _ _ st h)).2.2.1.trans rfl)
                    ((coreFlags_fields (pushLog_snaps _ _ _ _ st h)).2.2.2.2.2.trans heB)))
              · intro m hm
                exact absurd hm (by simp)
  | false =>
      cases hBun : env.bunExists1 with
      | true =>
          simp only [run, hUv, hBun, Bool.not_true, Bool.not_false, Bool.and_true,
            Bool.true_and, Bool.and_false, Bool.false_and, Bool.false_eq_true,
            Bool.true_eq_false, eq_self_iff_true, if_true, if_false, ite_true, ite_false,
            List.append_nil]
          split
          next m0 svcE evE heq =>
            have specU := installUv_specE env.isWin env.uvInstallRes _ _ _ _ heq hf rfl
              (invB_of_transient hd hf he)
            refine ⟨specU.1, ?_, ?_⟩
            · exact (snaps_all_append (snaps_all_append (snaps_all_append (snaps_all_append (snaps_all_append (snaps_all_append (snaps_all_append (snaps_all_append (snaps_all_append (snaps_all_append (snaps_all_append (fun st h => invB_snap_transient (setStage_snaps _ _ st h) hd hf he)
                (fun st h => invB_snap_transient (pushLog_snaps _ _ _ _ st h) hd hf he))
                (snaps_all_singleton (invB_of_transient hd hf he)))
                (fun st h => invB_snap_transient (pushLog_snaps _ _ _ _ st h) hd hf he))
                (fun st h => invB_snap_transient (setStage_snaps _ _ st h) hd hf he))
                (fun st h => invB_snap_transient (pushLog_snaps _ _ _ _ st h) hd hf he))
                (snaps_all_singleton (invB_of_transient hd hf he)))
                (fun st h => invB_snap_transient (pushLog_snaps _ _ _ _ st h) hd hf he))
                (fun st h => invB_snap_transient (setStage_snaps _ _ st h) hd hf he))
                (fun st h => invB_snap_transient (pushLog_snaps _ _ _ _ st h) hd hf he))
                (snaps_all_singleton (invB_of_transient hd hf he)))
                specU.2.1)
            · intro m hm
              rw [specU.2.2.1]
              simp
          next u0 svcA evA heq =>
            have specU := installUv_specE env.isWin env.uvInstallRes _ _ _ _ heq hf rfl
              (invB_of_transient hd hf he)
            have coreA := specU.2.2.2.2 u0 rfl
            have hcA := coreFlags_fields coreA
            have hdA : svcA.state.done = false := hcA.1.trans hd
            have hfA : svcA.state.failed = false := hcA.2.1.trans hf
            have heA : svcA.state.error = none := hcA.2.2.2.2.2.trans he
            split
            next hcond =>
              have hub14 : ((env.uvxExists2 || env.uvExists2) && env.bunExists2) = false := by
                cases hx : env.uvxExists2 <;> cases hy : env.uvExists2 <;>
                  cases hz : env.bunExists2 <;>
                    simp [hx, hy, hz] at hcond ⊢
              refine ⟨invB_of_failFlags (fail_coreFlags _ _) hub14, ?_, ?_⟩
              · exact (snaps_all_append (snaps_all_append (snaps_all_append (snaps_all_append (snaps_all_append (snaps_all_append (snaps_all_append (snaps_all_append (snaps_all_append (snaps_all_append (snaps_all_append (snaps_all_append (snaps_all_append (snaps_all_append (fun st h => invB_snap_transient (setStage_snaps _ _ st h) hd hf he)
                (fun st h => invB_snap_transient (pushLog_snaps _ _ _ _ st h) hd hf he))
                (snaps_all_singleton (invB_of_transient hd hf he)))
                (fun st h => invB_snap_transient (pushLog_snaps _ _ _ _ st h) hd hf he))
                (fun st h => invB_snap_transient (setStage_snaps _ _ st h) hd hf he))
                (fun st h => invB_snap_transient (pushLog_snaps _ _ _ _ st h) hd hf he))
                (snaps_all_singleton (invB_of_transient hd hf he)))
                (fun st h => invB_snap_transient (pushLog_snaps _ _ _ _ st h) hd hf he))
                (fun st h => invB_snap_transient (setStage_snaps _ _ st h) hd hf he))
                (fun st h => invB_snap_transient (pushLog_snaps _ _ _ _ st h) hd hf he))
                (snaps_all_singleton (invB_of_transient hd hf he)))
                specU.2.1)
                (fun st h => invB_snap_transient (setStage_snaps _ _ st h) hdA hfA heA))
                (fun st h => invB_snap_transient (pushLog_snaps _ _ _ _ st h) hdA hfA heA))
                (fun st h => invB_of_failFlags (fail_snaps _ _ st h) hub14))
              · intro m hm
                exact absurd hm (by simp)
            next hcond =>
              have hok2 : (env.uvxExists2 || env.uvExists2) = true ∧ env.bunExists2 = true := by
                cases hx : env.uvxExists2 <;> cases hy : env.uvExists2 <;>
                  cases hz : env.bunExists2 <;>
                    simp [hx, hy, hz] at hcond ⊢
              refine ⟨invB_of_success rfl rfl hok2.1 hok2.2 rfl heA, ?_, ?_⟩
              · exact (snaps_all_append (snaps_all_append (snaps_all_append (snaps_all_append (snaps_all_append (snaps_all_append (snaps_all_append (snaps_all_append (snaps_all_append (snaps_all_append (snaps_all_append (snaps_all_append (snaps_all_append (snaps_all_append (snaps_all_append (snaps_all_append (fun st h => invB_snap_transient (setStage_snaps _ _ st h) hd hf he)
                (fun st h => invB_snap_transient (pushLog_snaps _ _ _ _ st h) hd hf he))
                (snaps_all_singleton (invB_of_transient hd hf he)))
                (fun st h => invB_snap_transient (pushLog_snaps _ _ _ _ st h) hd hf he))
                (fun st h => invB_snap_transient (setStage_snaps _ _ st h) hd hf he))
                (fun st h => invB_snap_transient (pushLog_snaps _ _ _ _ st h) hd hf he))
                (snaps_all_singleton (invB_of_transient hd hf he)))
                (fun st h => invB_snap_transient (pushLog_snaps _ _ _ _ st h) hd hf he))
                (fun st h => invB_snap_transient (setStage_snaps _ _ st h) hd hf he))
                (fun st h => invB_snap_transient (pushLog_snaps _ _ _ _ st h) hd hf he))
                (snaps_all_singleton (invB_of_transient hd hf he)))
                specU.2.1)
                (fun st h => invB_snap_transient (setStage_snaps _ _ st h) hdA hfA heA))
                (fun st h => invB_snap_transient (pushLog_snaps _ _ _ _ st h) hdA hfA heA))
                (fun st h => invB_snap_transient (setStage_snaps _ _ st h) hdA hfA heA))
                (snaps_all_singleton (invB_of_success rfl rfl hok2.1 hok2.2 rfl heA)))
                (fun st h =>
                  invB_of_success ((coreFlags_fields (pushLog_snaps _ _ _ _ st h)).1.trans rfl)
                    ((coreFlags_fields (pushLog_snaps _ _ _ _ st h)).2.1.trans rfl)
                    ((coreFlags_fields (pushLog_snaps _ _ _ _ st h)).2.2.2.1.trans hok2.1)
                    ((coreFlags_fields (pushLog_snaps _ _ _ _ st h)).2.2.2.2.1.trans hok2.2)
                    ((coreFlags_fields (pushLog_snaps _ _ _ _ st h)).2.2.1.trans rfl)
                    ((coreFlags_fields (pushLog_snaps _ _ _ _ st h)).2.2.2.2.2.trans heA)))
              · intro m hm
                exact absurd hm (by simp)
      | false =>
          simp only [run, hUv, hBun, Bool.not_true, Bool.not_false, Bool.and_true,
            Bool.true_and, Bool.and_false, Bool.false_and, Bool.false_eq_true,
            Bool.true_eq_false, eq_self_iff_true, if_true, if_false, ite_true, ite_false,
            List.append_nil]
          split
          next m0 svcE evE heq =>
            have specU := installUv_specE env.isWin env.uvInstallRes _ _ _ _ heq hf rfl
              (invB_of_transient hd hf he)
            refine ⟨specU.1, ?_, ?_⟩
            · exact (snaps_all_append (snaps_all_append (snaps_all_append (snaps_all_append (snaps_all_append (snaps_all_append (snaps_all_append (snaps_all_append (snaps_all_append (snaps_all_append (snaps_all_append (fun st h => invB_snap_transient (setStage_snaps _ _ st h) hd hf he)
                (fun st h => invB_snap_transient (pushLog_snaps _ _ _ _ st h) hd hf he))
                (snaps_all_singleton (invB_of_transient hd hf he)))
                (fun st h => invB_snap_transient (pushLog_snaps _ _ _ _ st h) hd hf he))
                (fun st h => invB_snap_transient (setStage_snaps _ _ st h) hd hf he))
                (fun st h => invB_snap_transient (pushLog_snaps _ _ _ _ st h) hd hf he))
                (snaps_all_singleton (invB_of_transient hd hf he)))
                (fun st h => invB_snap_transient (pushLog_snaps _ _ _ _ st h) hd hf he))
                (fun st h => invB_snap_transient (setStage_snaps _ _ st h) hd hf he))
                (fun st h => invB_snap_transient (pushLog_snaps _ _ _ _ st h) hd hf he))
                (snaps_all_singleton (invB_of_transient hd hf he)))
                specU.2.1)
            · intro m hm
              rw [specU.2.2.1]
              simp
          next u0 svcA evA heq =>
            have specU := installUv_specE env.isWin env.uvInstallRes _ _ _ _ heq hf rfl
              (invB_of_transient hd hf he)
            have coreA := specU.2.2.2.2 u0 rfl
            have hcA := coreFlags_fields coreA
            have hdA : svcA.state.done = false := hcA.1.trans hd
            have hfA : svcA.state.failed = false := hcA.2.1.trans hf
            have heA : svcA.state.error = none := hcA.2.2.2.2.2.trans he
            have hbA : svcA.state.bunInstalled = false := hcA.2.2.2.2.1.trans rfl
            split
            next m0 svcE evE heq2 =>
              have specB2 := installBun_specE env.isWin env.bunInstallRes _ _ _ _ heq2 hfA hbA
                (invB_of_transient hdA hfA heA)
              refine ⟨specB2.1, ?_, ?_⟩
              · exact (snaps_all_append (snaps_all_append (snaps_all_append (snaps_all_append (snaps_all_append (snaps_all_append (snaps_all_append (snaps_all_append (snaps_all_append (snaps_all_append (snaps_all_append (snaps_all_append (fun st h => invB_snap_transient (setStage_snaps _ _ st h) hd hf he)
                (fun st h => invB_snap_transient (pushLog_snaps _ _ _ _ st h) hd hf he))
                (snaps_all_singleton (invB_of_transient hd hf he)))
                (fun st h => invB_snap_transient (pushLog_snaps _ _ _ _ st h) hd hf he))
                (fun st h => invB_snap_transient (setStage_snaps _ _ st h) hd hf he))
                (fun st h => invB_snap_transient (pushLog_snaps _ _ _ _ st h) hd hf he))
                (snaps_all_singleton (invB_of_transient hd hf he)))
                (fun st h => invB_snap_transient (pushLog_snaps _ _ _ _ st h) hd hf he))
                (fun st h => invB_snap_transient (setStage_snaps _ _ st h) hd hf he))
                (fun st h => invB_snap_transient (pushLog_snaps _ _ _ _ st h) hd hf he))
                (snaps_all_singleton (invB_of_transient hd hf he)))
                specU.2.1)
                specB2.2.1)
              · intro m hm
                rw [specB2.2.2.1]
                simp
            next u1 svcB evB heq2 =>
              have specB2 := installBun_specE env.isWin env.bunInstallRes _ _ _ _ heq2 hfA hbA
                (invB_of_transient hdA hfA heA)
              have coreB := specB2.2.2.2.2 u1 rfl
              have hcB := coreFlags_fields coreB
              have hdB : svcB.state.done = false := hcB.1.trans hdA
              have hfB : svcB.state.failed = false := hcB.2.1.trans hfA
              have heB : svcB.state.error = none := hcB.2.2.2.2.2.trans heA
              split
              next hcond =>
                have hub14 : ((env.uvxExists2 || env.uvExists2) && env.bunExists2) = false := by
                  cases hx : env.uvxExists2 <;> cases hy : env.uvExists2 <;>
                    cases hz : env.bunExists2 <;>
                      simp [hx, hy, hz] at hcond ⊢
                refine ⟨invB_of_failFlags (fail_coreFlags _ _) hub14, ?_, ?_⟩
                · exact (snaps_all_append (snaps_all_append (snaps_all_append (snaps_all_append (snaps_all_append (snaps_all_append (snaps_all_append (snaps_all_append (snaps_all_append (snaps_all_append (snaps_all_append (snaps_all_append (snaps_all_append (snaps_all_append (snaps_all_append (fun st h => invB_snap_transient (setStage_snaps _ _ st h) hd hf he)
                (fun st h => invB_snap_transient (pushLog_snaps _ _ _ _ st h) hd hf he))
                (snaps_all_singleton (invB_of_transient hd hf he)))
                (fun st h => invB_snap_transient (pushLog_snaps _ _ _ _ st h) hd hf he))
                (fun st h => invB_snap_transient (setStage_snaps _ _ st h) hd hf he))
                (fun st h => invB_snap_transient (pushLog_snaps _ _ _ _ st h) hd hf he))
                (snaps_all_singleton (invB_of_transient hd hf he)))
                (fun st h => invB_snap_transient (pushLog_snaps _ _ _ _ st h) hd hf he))
                (fun st h => invB_snap_transient (setStage_snaps _ _ st h) hd hf he))
                (fun st h => invB_snap_transient (pushLog_snaps _ _ _ _ st h) hd hf he))
                (snaps_all_singleton (invB_of_transient hd hf he)))
                specU.2.1)
                specB2.2.1)
                (fun st h => invB_snap_transient (setStage_snaps _ _ st h) hdB hfB heB))
                (fun st h => invB_snap_transient (pushLog_snaps _ _ _ _ st h) hdB hfB heB))
                (fun st h => invB_of_failFlags (fail_snaps _ _ st h) hub14))
                · intro m hm
                  exact absurd hm (by simp)
              next hcond =>
                have hok2 : (env.uvxExists2 || env.uvExists2) = true ∧ env.bunExists2 = true := by
                  cases hx : env.uvxExists2 <;> cases hy : env.uvExists2 <;>
                    cases hz : env.bunExists2 <;>
                      simp [hx, hy, hz] at hcond ⊢
                refine ⟨invB_of_success rfl rfl hok2.1 hok2.2 rfl heB, ?_, ?_⟩
                · exact (snaps_all_append (snaps_all_append (snaps_all_append (snaps_all_append (snaps_all_append (snaps_all_append (snaps_all_append (snaps_all_append (snaps_all_append (snaps_all_append (snaps_all_append (snaps_all_append (snaps_all_append (snaps_all_append (snaps_all_append (snaps_all_append (snaps_all_append (fun st h => invB_snap_transient (setStage_snaps _ _ st h) hd hf he)
                (fun st h => invB_snap_transient (pushLog_snaps _ _ _ _ st h) hd hf he))
                (snaps_all_singleton (invB_of_transient hd hf he)))
                (fun st h => invB_snap_transient (pushLog_snaps _ _ _ _ st h) hd hf he))
                (fun st h => invB_snap_transient (setStage_snaps _ _ st h) hd hf he))
                (fun st h => invB_snap_transient (pushLog_snaps _ _ _ _ st h) hd hf he))
                (snaps_all_singleton (invB_of_transient hd hf he)))
                (fun st h => invB_snap_transient (pushLog_snaps _ _ _ _ st h) hd hf he))
                (fun st h => invB_snap_transient (setStage_snaps _ _ st h) hd hf he))
                (fun st h => invB_snap_transient (pushLog_snaps _ _ _ _ st h) hd hf he))
                (snaps_all_singleton (invB_of_transient hd hf he)))
                specU.2.1)
                specB2.2.1)
                (fun st h => invB_snap_transient (setStage_snaps _ _ st h) hdB hfB heB))
                (fun st h => invB_snap_transient (pushLog_snaps _ _ _ _ st h) hdB hfB heB))
                (fun st h => invB_snap_transient (setStage_snaps _ _ st h) hdB hfB heB))
                (snaps_all_singleton (invB_of_success rfl rfl hok2.1 hok2.2 rfl heB)))
                (fun st h =>
                  invB_of_success ((coreFlags_fields (pushLog_snaps _ _ _ _ st h)).1.trans rfl)
                    ((coreFlags_fields (pushLog_snaps _ _ _ _ st h)).2.1.trans rfl)
                    ((coreFlags_fields (pushLog_snaps _ _ _ _ st h)).2.2.2.1.trans hok2.1)
                    ((coreFlags_fields (pushLog_snaps _ _ _ _ st h)).2.2.2.2.1.trans hok2.2)
                    ((coreFlags_fields (pushLog_snaps _ _ _ _ st h)).2.2.1.trans rfl)
                    ((coreFlags_fields (pushLog_snaps _ _ _ _ st h)).2.2.2.2.2.trans heB)))
                · intro m hm
                  exact absurd hm (by simp)


/-- C5 (state invariant): the spec invariant — `done` implies `failed` XOR
both tools installed, `installing` implies not `done`, and `error` present
iff `failed` — holds of the initial default state and is preserved by
`start`: it holds of the state `getState` returns afterwards and of every
state carried by a `StateSnapshot` emitted during the call, for any
environment, whenever it holds of the state before the call. -/
theorem state_invariant (env : Env) (svc : Svc) (hI : InvB svc.state = true) :
    (∀ c, InvB (defaultState c) = true) ∧
    InvB (getState (start env svc).2.1) = true ∧
    (∀ st ∈ snapsOf (start env svc).2.2, InvB st = true) := by
  refine ⟨fun c => rfl, ?_⟩
  by_cases hr : readyState svc.state = true
  · constructor
    · simp [start, hr, getState]
      exact hI
    · simp only [start, hr, if_true]
      exact snaps_all_singleton hI
  · have hr2 : readyState svc.state = false := by
      revert hr
      cases readyState svc.state <;> simp
    cases hrun : svc.running with
    | some p =>
        constructor
        · simp [start, hr2, hrun, getState]
          exact hI
        · simp only [start, hr2, hrun, Bool.false_eq_true, if_false]
          exact snaps_all_singleton hI
    | none =>
        have hstart : start env svc =
            (match run env (launchSetup svc).1 with
            | (Except.ok stR, svcR, evR) =>
                (StartRet.completed svc.nextId stR, { svcR with running := none },
                  (launchSetup svc).2 ++ evR)
            | (Except.error m, svcR, evR) =>
                let rF := fail svcR
                  { message := m, command := none, exitCode := none,
                    stderrTail := none, stdoutTail := none, suggestion := none }
                (StartRet.completed svc.nextId rF.1.state, { rF.1 with running := none },
                  (launchSetup svc).2 ++ evR ++ rF.2)) := by
          simp [start, hrun, hr2]
        have hrs := run_spec env (launchSetup svc).1 rfl rfl rfl
        rcases hq : run env (launchSetup svc).1 with ⟨res, svcR, evR⟩
        rw [hq] at hrs
        cases res with
        | ok stR =>
            rw [hstart, hq]
            constructor
            · exact hrs.1
            · refine snaps_all_append (snaps_all_append ?_ ?_) hrs.2.1
              · exact fun st h => invB_snap_transient (setStage_snaps _ _ st h) rfl rfl rfl
              · exact fun st h => invB_snap_transient (pushLog_snaps _ _ _ _ st h) rfl rfl rfl
        | error m0 =>
            rw [hstart, hq]
            have hub := hrs.2.2 m0 rfl
            constructor
            · exact invB_of_failFlags (fail_coreFlags _ _) hub
            · refine snaps_all_append (snaps_all_append (snaps_all_append ?_ ?_) hrs.2.1) ?_
              · exact fun st h => invB_snap_transient (setStage_snaps _ _ st h) rfl rfl rfl
              · exact fun st h => invB_snap_transient (pushLog_snaps _ _ _ _ st h) rfl rfl rfl
              · exact fun st h => invB_of_failFlags (fail_snaps _ _ st h) hub

/-- Witness for C5: the fresh service and the environment where uv must be
installed and its installer succeeds. -/
theorem state_invariant_witness :
    InvB (defaultState 0) = true ∧
    InvB (getState (start envInstallOk svcFresh).2.1) = true := by
  have h := state_invariant envInstallOk svcFresh (by decide)
  exact ⟨h.1 0, h.2.1⟩

end McpEnv
